import Mathlib

/-!
Formal model of the ESRI shapefile streaming decoder implemented in
`src/shapefile.c` of the libscott repository.

The C code is embedded shallowly:

* A `FILE *` byte stream is a `List Nat` of bytes (`SfStream`); `fread`
  consumes from the front of the list.  A short read consumes whatever is
  available, exactly as `fread` does.
* C `int16_t` / `int32_t` values are modelled as mathematical `Int` with
  explicit reduction modulo `2^16` / `2^32` (two's complement) at each
  conversion point (`toInt16`, `toInt32`).
* IEEE doubles are carried as their raw 64-bit little-endian bit patterns
  (`Nat`); the decoder never computes with the floating point values, it
  only moves them around, so this is faithful.
* The `length` out-parameter of the read helpers is a nullable pointer in C
  (`NULL` for header reads, a live counter for record reads).  The two modes
  are embedded as two monads: `MH` (no counter, header reads) and `MR`
  (counter of type `Int`, record reads).
* `malloc` results are driven by an explicit allocation oracle
  `Nat → Bool` together with a running allocation index, so allocation
  failure behaviour is expressible.  A dereference of a null pointer is an
  explicit `crash` outcome.
* The error buffer `shapefile->error` (a `snprintf`-formatted string) is
  modelled by the inductive `SfErr`, one constructor per distinct message
  site, carrying the formatted arguments.
* `fopen`/`fclose` bookkeeping is modelled by a `Handles` record of open
  flags; the file system is a partial map from path strings to contents.
  `asprintf`/`strdup` failures are not modelled (those allocations are
  assumed to succeed).
-/

/-- A byte stream: the contents of a file not yet consumed. -/
abbrev SfStream := List Nat

/-- Big-endian interpretation of a byte list as an unsigned number. -/
def beNat (l : List Nat) : Nat := l.foldl (fun acc b => acc * 256 + b) 0

/-- Little-endian interpretation of a byte list as an unsigned number. -/
def leNat (l : List Nat) : Nat := l.foldr (fun b acc => acc * 256 + b) 0

/-- Reinterpret the low 16 bits of a natural number as a two's complement
`int16_t` value. -/
def toInt16 (n : Nat) : Int :=
  if n % 65536 < 32768 then ((n % 65536 : Nat) : Int) else ((n % 65536 : Nat) : Int) - 65536

/-- Reinterpret the low 32 bits of a natural number as a two's complement
`int32_t` value. -/
def toInt32 (n : Nat) : Int :=
  if n % 4294967296 < 2147483648 then ((n % 4294967296 : Nat) : Int)
  else ((n % 4294967296 : Nat) : Int) - 4294967296

/-- The low 16 bits of an integer value, i.e. `value & 0xFFFF` after the
usual C integer promotion. -/
def u16 (i : Int) : Nat := (i % 65536).toNat

/-- The distinct failure messages written into `shapefile->error`, one
constructor per `snprintf`/`strlcpy` site in `src/shapefile.c`, carrying the
formatted arguments. -/
inductive SfErr where
  | ioError (wanted got : Nat)
  | badMagic (code : Int)
  | badHeaderType (t : Int)
  | tooShort (len : Int)
  | outOfMemory
  | invalidRecordType (t : Int) (recno : Int)
  | unsupportedType (t : Int) (recno : Int)
  | openFailed (path : String)
  deriving DecidableEq, Repr

/-- Reads whose `length` counter argument is `NULL` (header parsing): a
state monad over the remaining stream with short-circuiting errors. -/
def MH (α : Type) : Type := SfStream → Except SfErr α × SfStream

instance MH.instMonad : Monad MH where
  pure a := fun s => (Except.ok a, s)
  bind m f := fun s =>
    match m s with
    | (Except.ok a, s1) => f a s1
    | (Except.error e, s1) => (Except.error e, s1)

/-- `shapefile->error` assignment followed by returning `false`. -/
def MH.throw (e : SfErr) : MH α := fun s => (Except.error e, s)

/-- Reads whose `length` counter argument points to a live `int32_t`
counter (record parsing): state is the stream plus the counter. -/
def MR (α : Type) : Type := SfStream → Int → Except SfErr α × SfStream × Int

instance MR.instMonad : Monad MR where
  pure a := fun s l => (Except.ok a, s, l)
  bind m f := fun s l =>
    match m s l with
    | (Except.ok a, s1, l1) => f a s1 l1
    | (Except.error e, s1, l1) => (Except.error e, s1, l1)

/-- `shapefile_read` with a `NULL` length pointer: read exactly `n` bytes;
a short read consumes what is available and reports the io error message
`"Error reading %zu bytes: Only read %zu"`. -/
def shapefile_read_h (n : Nat) : MH (List Nat) := fun s =>
  if n ≤ s.length then (Except.ok (s.take n), s.drop n)
  else (Except.error (SfErr.ioError n s.length), s.drop n)

/-- `shapefile_read` with a live length counter: additionally decrements
the counter by the number of bytes read on success. -/
def shapefile_read_r (n : Nat) : MR (List Nat) := fun s l =>
  if n ≤ s.length then (Except.ok (s.take n), s.drop n, l - (n : Int))
  else (Except.error (SfErr.ioError n s.length), s.drop n, l)

/-- `shapefile_read_int16_be`, `NULL` counter. -/
def shapefile_read_int16_be_h : MH Int := do
  let b ← shapefile_read_h 2
  pure (toInt16 (beNat b))

/-- `shapefile_read_int16_be`, live counter. -/
def shapefile_read_int16_be_r : MR Int := do
  let b ← shapefile_read_r 2
  pure (toInt16 (beNat b))

/-- `shapefile_read_int32_le`, `NULL` counter. -/
def shapefile_read_int32_le_h : MH Int := do
  let b ← shapefile_read_h 4
  pure (toInt32 (leNat b))

/-- `shapefile_read_int32_le`, live counter. -/
def shapefile_read_int32_le_r : MR Int := do
  let b ← shapefile_read_r 4
  pure (toInt32 (leNat b))

/-- `shapefile_read_int32_be`, `NULL` counter. -/
def shapefile_read_int32_be_h : MH Int := do
  let b ← shapefile_read_h 4
  pure (toInt32 (beNat b))

/-- `shapefile_read_int32_be`, live counter. -/
def shapefile_read_int32_be_r : MR Int := do
  let b ← shapefile_read_r 4
  pure (toInt32 (beNat b))

/-- `shapefile_read_double_le`, `NULL` counter.  The value is kept as its
raw 64-bit little-endian bit pattern. -/
def shapefile_read_double_le_h : MH Nat := do
  let b ← shapefile_read_h 8
  pure (leNat b)

/-- `shapefile_read_double_le`, live counter. -/
def shapefile_read_double_le_r : MR Nat := do
  let b ← shapefile_read_r 8
  pure (leNat b)

/-- `(high << 16) | (low & 0xFFFF)` evaluated on two `int16_t` halves in
32-bit two's complement arithmetic, exactly as in
`shapefile_read_int32_size_be`. -/
def splitVal (low high : Int) : Int := toInt32 (u16 high * 65536 + u16 low)

/-- `shapefile_read_int32_size_be`, `NULL` counter: reads the low
big-endian 16-bit half, then the high half, then recombines. -/
def shapefile_read_int32_size_be_h : MH Int := do
  let low ← shapefile_read_int16_be_h
  let high ← shapefile_read_int16_be_h
  pure (splitVal low high)

/-- `shapefile_read_int32_size_be`, live counter. -/
def shapefile_read_int32_size_be_r : MR Int := do
  let low ← shapefile_read_int16_be_r
  let high ← shapefile_read_int16_be_r
  pure (splitVal low high)

/-- `SHAPEFILE_HEADER_MAGIC` = `0x0000270a`. -/
def SHAPEFILE_HEADER_MAGIC : Int := 9994

/-- `SHAPEFILE_HEADER_SIZE` = `9 * 4 + 8 * 8` = 100 bytes. -/
def SHAPEFILE_HEADER_SIZE : Int := 100

/-- `shapefile_type_valid`: the 14-member valid shape-type enumeration. -/
def shapefile_type_valid (t : Int) : Bool :=
  t = 0 ∨ t = 1 ∨ t = 3 ∨ t = 5 ∨ t = 8 ∨ t = 11 ∨ t = 13 ∨ t = 15 ∨
  t = 18 ∨ t = 21 ∨ t = 23 ∨ t = 25 ∨ t = 28 ∨ t = 31

/-- `shapefile_header_t` (the `unused` words are read but discarded). -/
structure shapefile_header_t where
  code : Int
  length : Int
  version : Int
  type : Int
  min_x : Nat
  max_x : Nat
  min_y : Nat
  max_y : Nat
  z_min : Nat
  z_max : Nat
  m_min : Nat
  m_max : Nat
  deriving DecidableEq, Repr

/-- `shapefile_read_header`: 17 field reads (with a `NULL` length counter)
followed by the three validations, in source order.  The length check
`header->length < SHAPEFILE_HEADER_SIZE` compares an `int32_t` against a
`size_t` (the macro is built from `sizeof`), so the usual arithmetic
conversions promote the length to the unsigned `size_t`: a negative
length wraps to a huge value and the check does NOT fire.  This is
modelled by reducing the length modulo `2^64` (a 64-bit `size_t`; any
`size_t` width of at least 32 bits gives the same verdict for `int32_t`
inputs) before the unsigned comparison. -/
def shapefile_read_header : MH shapefile_header_t := do
  let code ← shapefile_read_int32_be_h
  let _u0 ← shapefile_read_int32_be_h
  let _u1 ← shapefile_read_int32_be_h
  let _u2 ← shapefile_read_int32_be_h
  let _u3 ← shapefile_read_int32_be_h
  let _u4 ← shapefile_read_int32_be_h
  let len ← shapefile_read_int32_size_be_h
  let version ← shapefile_read_int32_le_h
  let ty ← shapefile_read_int32_le_h
  let min_x ← shapefile_read_double_le_h
  let max_x ← shapefile_read_double_le_h
  let min_y ← shapefile_read_double_le_h
  let max_y ← shapefile_read_double_le_h
  let z_min ← shapefile_read_double_le_h
  let z_max ← shapefile_read_double_le_h
  let m_min ← shapefile_read_double_le_h
  let m_max ← shapefile_read_double_le_h
  if code ≠ SHAPEFILE_HEADER_MAGIC then
    MH.throw (SfErr.badMagic code)
  else if ¬ shapefile_type_valid ty then
    MH.throw (SfErr.badHeaderType ty)
  else if len % 18446744073709551616 < SHAPEFILE_HEADER_SIZE then
    MH.throw (SfErr.tooShort len)
  else
    pure ⟨code, len, version, ty, min_x, max_x, min_y, max_y, z_min, z_max, m_min, m_max⟩

example : (shapefile_read_int32_size_be_h [0, 1, 0, 2]).1 = Except.ok 131073 := by rfl

example :
    (shapefile_read_header
      ([0, 0, 39, 10] ++ List.replicate 20 0 ++ [0, 100, 0, 0] ++ [232, 3, 0, 0] ++
        [1, 0, 0, 0] ++ List.replicate 64 0)).1
    = Except.ok ⟨9994, 100, 1000, 1, 0, 0, 0, 0, 0, 0, 0, 0⟩ := by rfl

/-- `shapefile_shape_point_t`: the two raw 64-bit LE double patterns. -/
structure shapefile_shape_point_t where
  x : Nat
  y : Nat
  deriving DecidableEq, Repr

/-- `shapefile_shape_t`: a shape-type tag plus an optional geometry
payload (`NULL` for `SHAPEFILE_TYPE_NULL`). -/
structure shapefile_shape_t where
  type : Int
  geometry : Option shapefile_shape_point_t
  deriving DecidableEq, Repr

/-- `shapefile_shape_new`: `malloc` a shape, driven by the allocation
oracle at index `k`; `none` models a `NULL` return.  Returns the next
allocation index. -/
def shapefile_shape_new (oracle : Nat → Bool) (k : Nat) (t : Int) :
    Option shapefile_shape_t × Nat :=
  (if oracle k then some ⟨t, none⟩ else none, k + 1)

/-- Outcome of calling `shapefile_shape_free` on a possibly-`NULL`
pointer: dereferencing `NULL` (the `switch (shape->type)`) is a crash. -/
inductive FreeResult where
  | ok
  | crash
  deriving DecidableEq, Repr

/-- `shapefile_shape_free`: reads `shape->type`, so a `NULL` shape pointer
crashes; freeing a real shape (and its geometry) always succeeds. -/
def shapefile_shape_free : Option shapefile_shape_t → FreeResult
  | none => FreeResult.crash
  | some _ => FreeResult.ok

/-- `shapefile_shp_record_header_t`. -/
structure shapefile_shp_record_header_t where
  number : Int
  length : Int
  deriving DecidableEq, Repr

/-- `shapefile_shp_record_t`. -/
structure shapefile_shp_record_t where
  type : Int
  shape : Option shapefile_shape_t
  deriving DecidableEq, Repr

/-- `shapefile_read_shp_record_header`: record number (32-bit BE) then
content length (split BE), both decrementing the live counter. -/
def shapefile_read_shp_record_header : MR shapefile_shp_record_header_t := do
  let number ← shapefile_read_int32_be_r
  let len ← shapefile_read_int32_size_be_r
  pure ⟨number, len⟩

/-- Outcome of decoding one record body (`shapefile_read_shp_record` and
its helpers): success with the updated state, a clean failure with the
error-buffer content, or a crash from dereferencing a `NULL` shape. -/
inductive RecordResult where
  | ok (rec : shapefile_shp_record_t) (s : SfStream) (len : Int) (k : Nat)
  | fail (e : SfErr) (s : SfStream) (len : Int) (k : Nat)
  | crash
  deriving DecidableEq, Repr

/-- `shapefile_read_shp_record_point`: `malloc` the point (checked, with
the `"Out of memory"` message), store it into `record->shape->geometry`
(dereferencing the shape pointer, a crash if it is `NULL`), then read the
two 64-bit LE doubles into it. -/
def shapefile_read_shp_record_point (oracle : Nat → Bool) (k : Nat)
    (shape : Option shapefile_shape_t) (s : SfStream) (len : Int) : RecordResult :=
  if oracle k then
    match shape with
    | none => RecordResult.crash
    | some sh =>
      match shapefile_read_double_le_r s len with
      | (Except.error e, s1, l1) => RecordResult.fail e s1 l1 (k + 1)
      | (Except.ok x, s1, l1) =>
        match shapefile_read_double_le_r s1 l1 with
        | (Except.error e, s2, l2) => RecordResult.fail e s2 l2 (k + 1)
        | (Except.ok y, s2, l2) =>
          RecordResult.ok ⟨sh.type, some { sh with geometry := some ⟨x, y⟩ }⟩ s2 l2 (k + 1)
  else
    RecordResult.fail SfErr.outOfMemory s len (k + 1)

/-- `shapefile_read_shp_record`: read the 32-bit LE shape-type tag, check
validity, allocate the shape container (result NOT checked against
`NULL`), dispatch on the type, and free the shape on any failure. -/
def shapefile_read_shp_record (oracle : Nat → Bool) (k : Nat)
    (record_header : shapefile_shp_record_header_t) (s : SfStream) (len : Int) :
    RecordResult :=
  match shapefile_read_int32_le_r s len with
  | (Except.error e, s1, l1) => RecordResult.fail e s1 l1 k
  | (Except.ok t, s1, l1) =>
    if shapefile_type_valid t = false then
      RecordResult.fail (SfErr.invalidRecordType t record_header.number) s1 l1 k
    else
      match shapefile_shape_new oracle k t with
      | (shape, k1) =>
        if t = 0 then
          -- SHAPEFILE_TYPE_NULL: shapefile_read_shp_record_null reads nothing
          RecordResult.ok ⟨t, shape⟩ s1 l1 k1
        else if t = 1 then
          -- SHAPEFILE_TYPE_POINT
          match shapefile_read_shp_record_point oracle k1 shape s1 l1 with
          | RecordResult.ok rec s2 l2 k2 => RecordResult.ok ⟨t, rec.shape⟩ s2 l2 k2
          | RecordResult.fail e s2 l2 k2 =>
            match shapefile_shape_free shape with
            | FreeResult.ok => RecordResult.fail e s2 l2 k2
            | FreeResult.crash => RecordResult.crash
          | RecordResult.crash => RecordResult.crash
        else
          -- structurally valid but unimplemented shape kinds
          match shapefile_shape_free shape with
          | FreeResult.ok => RecordResult.fail (SfErr.unsupportedType t record_header.number) s1 l1 k1
          | FreeResult.crash => RecordResult.crash

/-- The consumer callback: takes the decoded shape pointer (possibly
`NULL`) and the caller state, returns the continue flag and the updated
state. -/
def SfCallback (σ : Type) : Type := Option shapefile_shape_t → σ → Bool × σ

/-- Outcome of the record-iteration loop of `shapefile_parse_shp`: the
final callback state, stop flag, stream, remaining budget and allocation
index — or a clean failure (callback state preserved), or a crash. -/
inductive LoopResult (σ : Type) where
  | ok (ud : σ) (stop : Bool) (s : SfStream) (len : Int) (k : Nat)
  | fail (e : SfErr) (ud : σ) (s : SfStream) (len : Int) (k : Nat)
  | crash

/-! ### Evaluation lemmas for the read primitives -/

lemma MH.bind_eq {α β : Type} (m : MH α) (f : α → MH β) (s : SfStream) :
    (m >>= f) s =
      match m s with
      | (Except.ok a, s1) => f a s1
      | (Except.error e, s1) => (Except.error e, s1) := rfl

lemma MH.pure_eq {α : Type} (a : α) (s : SfStream) :
    (pure a : MH α) s = (Except.ok a, s) := rfl

lemma MR.bind_eq_r {α β : Type} (m : MR α) (f : α → MR β) (s : SfStream) (l : Int) :
    (m >>= f) s l =
      match m s l with
      | (Except.ok a, s1, l1) => f a s1 l1
      | (Except.error e, s1, l1) => (Except.error e, s1, l1) := rfl

lemma MR.pure_eq_r {α : Type} (a : α) (s : SfStream) (l : Int) :
    (pure a : MR α) s l = (Except.ok a, s, l) := rfl

lemma shapefile_read_h_chunk (c t : List Nat) (n : Nat) (h : c.length = n) :
    shapefile_read_h n (c ++ t) = (Except.ok c, t) := by
  subst h
  unfold shapefile_read_h
  rw [if_pos (by simp), List.take_left, List.drop_left]

lemma shapefile_read_r_chunk (c t : List Nat) (n : Nat) (l : Int) (h : c.length = n) :
    shapefile_read_r n (c ++ t) l = (Except.ok c, t, l - (n : Int)) := by
  subst h
  unfold shapefile_read_r
  rw [if_pos (by simp), List.take_left, List.drop_left]

lemma shapefile_read_int16_be_h_chunk (b0 b1 : Nat) (t : List Nat) :
    shapefile_read_int16_be_h (b0 :: b1 :: t) =
      (Except.ok (toInt16 (beNat [b0, b1])), t) := by
  have h : shapefile_read_h 2 (b0 :: b1 :: t) = (Except.ok [b0, b1], t) :=
    shapefile_read_h_chunk [b0, b1] t 2 rfl
  simp only [shapefile_read_int16_be_h, MH.bind_eq, h, MH.pure_eq]

lemma shapefile_read_int16_be_r_chunk (b0 b1 : Nat) (t : List Nat) (l : Int) :
    shapefile_read_int16_be_r (b0 :: b1 :: t) l =
      (Except.ok (toInt16 (beNat [b0, b1])), t, l - 2) := by
  have h : shapefile_read_r 2 (b0 :: b1 :: t) l = (Except.ok [b0, b1], t, l - 2) :=
    shapefile_read_r_chunk [b0, b1] t 2 l rfl
  simp only [shapefile_read_int16_be_r, MR.bind_eq_r, h, MR.pure_eq_r]

lemma shapefile_read_int32_be_h_chunk (b0 b1 b2 b3 : Nat) (t : List Nat) :
    shapefile_read_int32_be_h (b0 :: b1 :: b2 :: b3 :: t) =
      (Except.ok (toInt32 (beNat [b0, b1, b2, b3])), t) := by
  have h : shapefile_read_h 4 (b0 :: b1 :: b2 :: b3 :: t) = (Except.ok [b0, b1, b2, b3], t) :=
    shapefile_read_h_chunk [b0, b1, b2, b3] t 4 rfl
  simp only [shapefile_read_int32_be_h, MH.bind_eq, h, MH.pure_eq]

lemma shapefile_read_int32_be_r_chunk (b0 b1 b2 b3 : Nat) (t : List Nat) (l : Int) :
    shapefile_read_int32_be_r (b0 :: b1 :: b2 :: b3 :: t) l =
      (Except.ok (toInt32 (beNat [b0, b1, b2, b3])), t, l - 4) := by
  have h : shapefile_read_r 4 (b0 :: b1 :: b2 :: b3 :: t) l = (Except.ok [b0, b1, b2, b3], t, l - 4) :=
    shapefile_read_r_chunk [b0, b1, b2, b3] t 4 l rfl
  simp only [shapefile_read_int32_be_r, MR.bind_eq_r, h, MR.pure_eq_r]

lemma shapefile_read_int32_le_h_chunk (b0 b1 b2 b3 : Nat) (t : List Nat) :
    shapefile_read_int32_le_h (b0 :: b1 :: b2 :: b3 :: t) =
      (Except.ok (toInt32 (leNat [b0, b1, b2, b3])), t) := by
  have h : shapefile_read_h 4 (b0 :: b1 :: b2 :: b3 :: t) = (Except.ok [b0, b1, b2, b3], t) :=
    shapefile_read_h_chunk [b0, b1, b2, b3] t 4 rfl
  simp only [shapefile_read_int32_le_h, MH.bind_eq, h, MH.pure_eq]

lemma shapefile_read_int32_le_r_chunk (b0 b1 b2 b3 : Nat) (t : List Nat) (l : Int) :
    shapefile_read_int32_le_r (b0 :: b1 :: b2 :: b3 :: t) l =
      (Except.ok (toInt32 (leNat [b0, b1, b2, b3])), t, l - 4) := by
  have h : shapefile_read_r 4 (b0 :: b1 :: b2 :: b3 :: t) l = (Except.ok [b0, b1, b2, b3], t, l - 4) :=
    shapefile_read_r_chunk [b0, b1, b2, b3] t 4 l rfl
  simp only [shapefile_read_int32_le_r, MR.bind_eq_r, h, MR.pure_eq_r]

lemma shapefile_read_double_le_h_chunk (b0 b1 b2 b3 b4 b5 b6 b7 : Nat) (t : List Nat) :
    shapefile_read_double_le_h (b0 :: b1 :: b2 :: b3 :: b4 :: b5 :: b6 :: b7 :: t) =
      (Except.ok (leNat [b0, b1, b2, b3, b4, b5, b6, b7]), t) := by
  have h : shapefile_read_h 8 (b0 :: b1 :: b2 :: b3 :: b4 :: b5 :: b6 :: b7 :: t) =
      (Except.ok [b0, b1, b2, b3, b4, b5, b6, b7], t) :=
    shapefile_read_h_chunk [b0, b1, b2, b3, b4, b5, b6, b7] t 8 rfl
  simp only [shapefile_read_double_le_h, MH.bind_eq, h, MH.pure_eq]

lemma shapefile_read_double_le_r_chunk (b0 b1 b2 b3 b4 b5 b6 b7 : Nat) (t : List Nat) (l : Int) :
    shapefile_read_double_le_r (b0 :: b1 :: b2 :: b3 :: b4 :: b5 :: b6 :: b7 :: t) l =
      (Except.ok (leNat [b0, b1, b2, b3, b4, b5, b6, b7]), t, l - 8) := by
  have h : shapefile_read_r 8 (b0 :: b1 :: b2 :: b3 :: b4 :: b5 :: b6 :: b7 :: t) l =
      (Except.ok [b0, b1, b2, b3, b4, b5, b6, b7], t, l - 8) :=
    shapefile_read_r_chunk [b0, b1, b2, b3, b4, b5, b6, b7] t 8 l rfl
  simp only [shapefile_read_double_le_r, MR.bind_eq_r, h, MR.pure_eq_r]

lemma shapefile_read_int32_size_be_h_chunk (l0 l1 h0 h1 : Nat) (t : List Nat) :
    shapefile_read_int32_size_be_h (l0 :: l1 :: h0 :: h1 :: t) =
      (Except.ok (splitVal (toInt16 (beNat [l0, l1])) (toInt16 (beNat [h0, h1]))), t) := by
  simp only [shapefile_read_int32_size_be_h, MH.bind_eq,
    shapefile_read_int16_be_h_chunk, MH.pure_eq]

lemma shapefile_read_int32_size_be_r_chunk (l0 l1 h0 h1 : Nat) (t : List Nat) (l : Int) :
    shapefile_read_int32_size_be_r (l0 :: l1 :: h0 :: h1 :: t) l =
      (Except.ok (splitVal (toInt16 (beNat [l0, l1])) (toInt16 (beNat [h0, h1]))), t, l - 4) := by
  simp only [shapefile_read_int32_size_be_r, MR.bind_eq_r,
    shapefile_read_int16_be_r_chunk, MR.pure_eq_r]
  norm_num
  ring

lemma shapefile_read_shp_record_header_chunk (b0 b1 b2 b3 l0 l1 h0 h1 : Nat)
    (t : List Nat) (l : Int) :
    shapefile_read_shp_record_header (b0 :: b1 :: b2 :: b3 :: l0 :: l1 :: h0 :: h1 :: t) l =
      (Except.ok ⟨toInt32 (beNat [b0, b1, b2, b3]),
        splitVal (toInt16 (beNat [l0, l1])) (toInt16 (beNat [h0, h1]))⟩, t, l - 8) := by
  simp only [shapefile_read_shp_record_header, MR.bind_eq_r,
    shapefile_read_int32_be_r_chunk, shapefile_read_int32_size_be_r_chunk, MR.pure_eq_r]
  norm_num
  ring

/-! ### Inversion lemmas: what a successful read tells about the state -/

lemma MH.bind_ok {α β : Type} {m : MH α} {f : α → MH β} {s : SfStream}
    {b : β} {s1 : SfStream}
    (hb : (m >>= f) s = (Except.ok b, s1)) :
    ∃ a s2, m s = (Except.ok a, s2) ∧ f a s2 = (Except.ok b, s1) := by
  rw [MH.bind_eq] at hb
  rcases hm : m s with ⟨res, s2⟩
  rw [hm] at hb
  cases res with
  | error e => simp at hb
  | ok a => exact ⟨a, s2, rfl, hb⟩

lemma MR.bind_ok_r {α β : Type} {m : MR α} {f : α → MR β} {s : SfStream} {l : Int}
    {b : β} {s1 : SfStream} {l1 : Int}
    (hb : (m >>= f) s l = (Except.ok b, s1, l1)) :
    ∃ a s2 l2, m s l = (Except.ok a, s2, l2) ∧ f a s2 l2 = (Except.ok b, s1, l1) := by
  rw [MR.bind_eq_r] at hb
  rcases hm : m s l with ⟨res, s2, l2⟩
  rw [hm] at hb
  cases res with
  | error e => simp at hb
  | ok a => exact ⟨a, s2, l2, rfl, hb⟩

lemma shapefile_read_r_ok {n : Nat} {s : SfStream} {l : Int} {b : List Nat}
    {s1 : SfStream} {l1 : Int}
    (h : shapefile_read_r n s l = (Except.ok b, s1, l1)) :
    n ≤ s.length ∧ b = s.take n ∧ s1 = s.drop n ∧ l1 = l - n := by
  unfold shapefile_read_r at h
  split at h
  · simp_all
  · simp at h

lemma shapefile_read_int32_le_r_ok {s : SfStream} {l : Int} {v : Int}
    {s1 : SfStream} {l1 : Int}
    (h : shapefile_read_int32_le_r s l = (Except.ok v, s1, l1)) :
    4 ≤ s.length ∧ s1 = s.drop 4 ∧ l1 = l - 4 ∧ v = toInt32 (leNat (s.take 4)) := by
  unfold shapefile_read_int32_le_r at h
  obtain ⟨a, s2, l2, hm, hf⟩ := MR.bind_ok_r h
  obtain ⟨hn, hb, hs, hl⟩ := shapefile_read_r_ok hm
  rw [MR.pure_eq_r] at hf
  simp only [Prod.mk.injEq, Except.ok.injEq] at hf
  obtain ⟨hv, hs1, hl1⟩ := hf
  subst hb hs hl hv hs1 hl1
  exact ⟨hn, rfl, by norm_num, rfl⟩

lemma shapefile_read_int32_be_r_ok {s : SfStream} {l : Int} {v : Int}
    {s1 : SfStream} {l1 : Int}
    (h : shapefile_read_int32_be_r s l = (Except.ok v, s1, l1)) :
    4 ≤ s.length ∧ s1 = s.drop 4 ∧ l1 = l - 4 ∧ v = toInt32 (beNat (s.take 4)) := by
  unfold shapefile_read_int32_be_r at h
  obtain ⟨a, s2, l2, hm, hf⟩ := MR.bind_ok_r h
  obtain ⟨hn, hb, hs, hl⟩ := shapefile_read_r_ok hm
  rw [MR.pure_eq_r] at hf
  simp only [Prod.mk.injEq, Except.ok.injEq] at hf
  obtain ⟨hv, hs1, hl1⟩ := hf
  subst hb hs hl hv hs1 hl1
  exact ⟨hn, rfl, by norm_num, rfl⟩

lemma shapefile_read_int16_be_r_ok {s : SfStream} {l : Int} {v : Int}
    {s1 : SfStream} {l1 : Int}
    (h : shapefile_read_int16_be_r s l = (Except.ok v, s1, l1)) :
    2 ≤ s.length ∧ s1 = s.drop 2 ∧ l1 = l - 2 ∧ v = toInt16 (beNat (s.take 2)) := by
  unfold shapefile_read_int16_be_r at h
  obtain ⟨a, s2, l2, hm, hf⟩ := MR.bind_ok_r h
  obtain ⟨hn, hb, hs, hl⟩ := shapefile_read_r_ok hm
  rw [MR.pure_eq_r] at hf
  simp only [Prod.mk.injEq, Except.ok.injEq] at hf
  obtain ⟨hv, hs1, hl1⟩ := hf
  subst hb hs hl hv hs1 hl1
  exact ⟨hn, rfl, by norm_num, rfl⟩

lemma shapefile_read_double_le_r_ok {s : SfStream} {l : Int} {v : Nat}
    {s1 : SfStream} {l1 : Int}
    (h : shapefile_read_double_le_r s l = (Except.ok v, s1, l1)) :
    8 ≤ s.length ∧ s1 = s.drop 8 ∧ l1 = l - 8 := by
  unfold shapefile_read_double_le_r at h
  obtain ⟨a, s2, l2, hm, hf⟩ := MR.bind_ok_r h
  obtain ⟨hn, hb, hs, hl⟩ := shapefile_read_r_ok hm
  rw [MR.pure_eq_r] at hf
  simp only [Prod.mk.injEq, Except.ok.injEq] at hf
  obtain ⟨hv, hs1, hl1⟩ := hf
  subst hb hs hl hs1 hl1
  exact ⟨hn, rfl, by norm_num⟩

lemma shapefile_read_int32_size_be_r_ok {s : SfStream} {l : Int} {v : Int}
    {s1 : SfStream} {l1 : Int}
    (h : shapefile_read_int32_size_be_r s l = (Except.ok v, s1, l1)) :
    4 ≤ s.length ∧ s1 = s.drop 4 ∧ l1 = l - 4 := by
  unfold shapefile_read_int32_size_be_r at h
  obtain ⟨a, s2, l2, hm, hf⟩ := MR.bind_ok_r h
  obtain ⟨a2, s3, l3, hm2, hf2⟩ := MR.bind_ok_r hf
  obtain ⟨hn, hs, hl, _⟩ := shapefile_read_int16_be_r_ok hm
  obtain ⟨hn2, hs2, hl2, _⟩ := shapefile_read_int16_be_r_ok hm2
  rw [MR.pure_eq_r] at hf2
  simp only [Prod.mk.injEq, Except.ok.injEq] at hf2
  obtain ⟨hv, hs1, hl1⟩ := hf2
  subst hs hl hs2 hl2 hs1 hl1
  refine ⟨by simp at hn2 ⊢; omega, by rw [List.drop_drop], by ring⟩

lemma shapefile_read_shp_record_header_ok {s : SfStream} {l : Int}
    {h : shapefile_shp_record_header_t} {s1 : SfStream} {l1 : Int}
    (hh : shapefile_read_shp_record_header s l = (Except.ok h, s1, l1)) :
    8 ≤ s.length ∧ s1 = s.drop 8 ∧ l1 = l - 8 := by
  unfold shapefile_read_shp_record_header at hh
  obtain ⟨a, s2, l2, hm, hf⟩ := MR.bind_ok_r hh
  obtain ⟨a2, s3, l3, hm2, hf2⟩ := MR.bind_ok_r hf
  obtain ⟨hn, hs, hl, _⟩ := shapefile_read_int32_be_r_ok hm
  obtain ⟨hn2, hs2, hl2⟩ := shapefile_read_int32_size_be_r_ok hm2
  rw [MR.pure_eq_r] at hf2
  simp only [Prod.mk.injEq, Except.ok.injEq] at hf2
  obtain ⟨hv, hs1, hl1⟩ := hf2
  subst hs hl hs2 hl2 hs1 hl1
  refine ⟨by simp at hn2 ⊢; omega, by rw [List.drop_drop], by ring⟩

lemma shapefile_read_shp_record_point_ok {oracle : Nat → Bool} {k : Nat}
    {shape : Option shapefile_shape_t} {s : SfStream} {l : Int}
    {rec : shapefile_shp_record_t} {s2 : SfStream} {l2 : Int} {k2 : Nat}
    (h : shapefile_read_shp_record_point oracle k shape s l = RecordResult.ok rec s2 l2 k2) :
    16 ≤ s.length ∧ s2 = s.drop 16 ∧ l2 = l - 16 := by
  unfold shapefile_read_shp_record_point at h
  split at h
  · split at h
    · simp at h
    · rename_i sh
      split at h
      · simp at h
      · rename_i x sx lx heqx
        split at h
        · simp at h
        · rename_i y sy ly heqy
          simp only [RecordResult.ok.injEq] at h
          obtain ⟨_, hs2, hl2, _⟩ := h
          obtain ⟨hnx, hsx, hlx⟩ := shapefile_read_double_le_r_ok heqx
          obtain ⟨hny, hsy, hly⟩ := shapefile_read_double_le_r_ok heqy
          subst hsx hlx hsy hly
          refine ⟨?_, ?_, ?_⟩
          · simp at hny ⊢; omega
          · rw [← hs2, List.drop_drop]
          · rw [← hl2]; ring
  · simp at h

lemma shapefile_read_shp_record_ok {oracle : Nat → Bool} {k : Nat}
    {rh : shapefile_shp_record_header_t} {s : SfStream} {l : Int}
    {rec : shapefile_shp_record_t} {s2 : SfStream} {l2 : Int} {k2 : Nat}
    (h : shapefile_read_shp_record oracle k rh s l = RecordResult.ok rec s2 l2 k2) :
    4 ≤ s.length ∧ s2.length + 4 ≤ s.length ∧ l2 ≤ l - 4 := by
  unfold shapefile_read_shp_record at h
  split at h
  · simp at h
  · rename_i t s1 l1 ht
    obtain ⟨h4, hs1, hl1, _⟩ := shapefile_read_int32_le_r_ok ht
    split at h
    · simp at h
    · split at h
      rename_i hvalid shape k1 hnew
      split at h
      · -- SHAPEFILE_TYPE_NULL
        simp only [RecordResult.ok.injEq] at h
        obtain ⟨_, hs2, hl2, _⟩ := h
        subst hs1 hl1
        refine ⟨h4, ?_, ?_⟩
        · rw [← hs2]; simp; omega
        · rw [← hl2]
      · split at h
        · -- SHAPEFILE_TYPE_POINT
          split at h
          · rename_i rec1 sp lp kp hp
            simp only [RecordResult.ok.injEq] at h
            obtain ⟨_, hs2, hl2, _⟩ := h
            obtain ⟨h16, hsp, hlp⟩ := shapefile_read_shp_record_point_ok hp
            subst hs1 hl1
            refine ⟨h4, ?_, ?_⟩
            · rw [← hs2, hsp]; simp at h16 ⊢; omega
            · rw [← hl2, hlp]; omega
          · split at h <;> simp at h
          · simp at h
        · -- valid but unsupported kind
          split at h <;> simp at h

/-- The record-iteration `while` loop of `shapefile_parse_shp`:
`while (success && !*stop && length > 0)` — read a record header, decode
the record body, deliver the shape to the callback (when one is given),
free the shape, and continue with the callback's stop signal.  Total by
well-founded recursion: every successful iteration consumes at least the
8 record-header bytes plus the 4 shape-type bytes from the stream. -/
def shapefile_parse_shp_loop {σ : Type} (oracle : Nat → Bool) (cb : Option (SfCallback σ))
    (ud : σ) (stop : Bool) (k : Nat) (s : SfStream) (len : Int) : LoopResult σ :=
  if stop = true ∨ len ≤ 0 then LoopResult.ok ud stop s len k
  else
    match hh : shapefile_read_shp_record_header s len with
    | (Except.error e, s1, l1) => LoopResult.fail e ud s1 l1 k
    | (Except.ok record_header, s1, l1) =>
      match hr : shapefile_read_shp_record oracle k record_header s1 l1 with
      | RecordResult.fail e s2 l2 k2 => LoopResult.fail e ud s2 l2 k2
      | RecordResult.crash => LoopResult.crash
      | RecordResult.ok rec s2 l2 k2 =>
        match cb with
        | none => shapefile_parse_shp_loop oracle cb ud stop k2 s2 l2
        | some c =>
          match c rec.shape ud with
          | (cont, ud1) =>
            match shapefile_shape_free rec.shape with
            | FreeResult.crash => LoopResult.crash
            | FreeResult.ok => shapefile_parse_shp_loop oracle cb ud1 (!cont) k2 s2 l2
termination_by s.length
decreasing_by
  all_goals
    obtain ⟨h8, hs1, hl1⟩ := shapefile_read_shp_record_header_ok hh
    obtain ⟨h4, hlen, hl2⟩ := shapefile_read_shp_record_ok hr
    subst hs1
    simp only [List.length_drop] at hlen ⊢
    omega

/-- The open/closed state of the two `FILE *` handles held by
`shapefile_t` (`shapefile->shp.f` and `shapefile->shx.f`). -/
structure Handles where
  shp : Bool
  shx : Bool
  deriving DecidableEq, Repr

/-- A file system: maps a path to the file's contents, or `none` when
`fopen` fails. -/
def SfFs : Type := String → Option SfStream

/-- `shapefile_init`: `calloc` leaves both handles `NULL`. -/
def shapefile_init : Handles := ⟨false, false⟩

/-- `shapefile_free`: frees the session struct only — it does NOT call
`fclose` on either handle, so the handle state is returned unchanged. -/
def shapefile_free (h : Handles) : Handles := h

/-- `shapefile_parse_shx`: open `<prefix>.shx`, read its header purely for
validation.  On failure the `.shx` handle is closed again; on success it
is left open. -/
def shapefile_parse_shx (fs : SfFs) (path_stem : String) (h : Handles) :
    Except SfErr Unit × Handles :=
  match fs (path_stem ++ ".shx") with
  | none => (Except.error (SfErr.openFailed (path_stem ++ ".shx")), h)
  | some content =>
    match shapefile_read_header content with
    | (Except.ok _, _) => (Except.ok (), { h with shx := true })
    | (Except.error e, _) => (Except.error e, { h with shx := false })

/-- Result of `shapefile_parse_shp` (and of `shapefile_parse_cb`): the
returned boolean together with the handle state and the callback state,
or a crash. -/
inductive ParseResult (σ : Type) where
  | ok (h : Handles) (ud : σ)
  | fail (e : SfErr) (h : Handles) (ud : σ)
  | crash

/-- The budget initialization `length = header->length -
SHAPEFILE_HEADER_SIZE` of `shapefile_parse_shp`: the subtraction is
performed in the unsigned `size_t` (the macro is built from `sizeof`)
and the result is converted back to `int32_t`, which wraps modulo
`2^32`.  In the valid region `100 ≤ len < 2^31` this is exactly
`len - 100`; a negative header length wraps to a large positive
budget. -/
def shp_loop_budget (len : Int) : Int :=
  toInt32 ((len - SHAPEFILE_HEADER_SIZE) % 4294967296).toNat

/-- `shapefile_parse_shp`: open `<prefix>.shp`, parse its header, then
drive the record loop with the budget `header.length -
SHAPEFILE_HEADER_SIZE` (computed through `size_t` and `int32_t` as in
the source, see `shp_loop_budget`).  On any failure the cleanup block
closes the `.shx` handle (not the `.shp` handle); on success nothing is
closed. -/
def shapefile_parse_shp {σ : Type} (oracle : Nat → Bool) (fs : SfFs)
    (path_stem : String) (cb : Option (SfCallback σ)) (ud : σ) (stop : Bool)
    (h : Handles) : ParseResult σ :=
  match fs (path_stem ++ ".shp") with
  | none => ParseResult.fail (SfErr.openFailed (path_stem ++ ".shp")) { h with shx := false } ud
  | some content =>
    let h1 : Handles := { h with shp := true }
    match shapefile_read_header content with
    | (Except.error e, _) => ParseResult.fail e { h1 with shx := false } ud
    | (Except.ok header, rest) =>
      match shapefile_parse_shp_loop oracle cb ud stop 0 rest
          (shp_loop_budget header.length) with
      | LoopResult.ok ud1 _ _ _ _ => ParseResult.ok h1 ud1
      | LoopResult.fail e ud1 _ _ _ => ParseResult.fail e { h1 with shx := false } ud1
      | LoopResult.crash => ParseResult.crash

/-- `strrchr(path, '.')` position: the index of the last `'.'` in the
character list, if any. -/
def strrchr_dot : List Char → Option Nat
  | [] => none
  | c :: rest =>
    match strrchr_dot rest with
    | some i => some (i + 1)
    | none => if c = '.' then some 0 else none

/-- The path-prefix computation of `shapefile_parse_cb`: `strdup` the
path, find the last `'.'` with `strrchr`, and truncate there when found
(else use the path unmodified). -/
def shapefile_path_stem (path : String) : String :=
  match strrchr_dot path.data with
  | none => path
  | some i => String.mk (path.data.take i)

/-- `shapefile_parse_cb`: derive the path prefix, validate `<prefix>.shx`,
then parse `<prefix>.shp` (short-circuiting `&&`: the geometry file is
not touched when the index file fails). -/
def shapefile_parse_cb {σ : Type} (oracle : Nat → Bool) (fs : SfFs) (path : String)
    (cb : Option (SfCallback σ)) (ud : σ) : ParseResult σ :=
  let path_stem := shapefile_path_stem path
  match shapefile_parse_shx fs path_stem shapefile_init with
  | (Except.error e, h1) => ParseResult.fail e h1 ud
  | (Except.ok _, h1) => shapefile_parse_shp oracle fs path_stem cb ud false h1

/-! ### Append-form evaluation lemmas and the header characterization -/

lemma shapefile_read_int16_be_h_app (c t : List Nat) (hc : c.length = 2) :
    shapefile_read_int16_be_h (c ++ t) = (Except.ok (toInt16 (beNat c)), t) := by
  unfold shapefile_read_int16_be_h
  rw [MH.bind_eq, shapefile_read_h_chunk c t 2 hc]
  rfl

lemma shapefile_read_int32_be_h_app (c t : List Nat) (hc : c.length = 4) :
    shapefile_read_int32_be_h (c ++ t) = (Except.ok (toInt32 (beNat c)), t) := by
  unfold shapefile_read_int32_be_h
  rw [MH.bind_eq, shapefile_read_h_chunk c t 4 hc]
  rfl

lemma shapefile_read_int32_le_h_app (c t : List Nat) (hc : c.length = 4) :
    shapefile_read_int32_le_h (c ++ t) = (Except.ok (toInt32 (leNat c)), t) := by
  unfold shapefile_read_int32_le_h
  rw [MH.bind_eq, shapefile_read_h_chunk c t 4 hc]
  rfl

lemma shapefile_read_double_le_h_app (c t : List Nat) (hc : c.length = 8) :
    shapefile_read_double_le_h (c ++ t) = (Except.ok (leNat c), t) := by
  unfold shapefile_read_double_le_h
  rw [MH.bind_eq, shapefile_read_h_chunk c t 8 hc]
  rfl

lemma MH.step_int16_be {β : Type} (c t : List Nat) (f : Int → MH β) (hc : c.length = 2) :
    (shapefile_read_int16_be_h >>= f) (c ++ t) = f (toInt16 (beNat c)) t := by
  rw [MH.bind_eq, shapefile_read_int16_be_h_app c t hc]

lemma MH.step_int32_be {β : Type} (c t : List Nat) (f : Int → MH β) (hc : c.length = 4) :
    (shapefile_read_int32_be_h >>= f) (c ++ t) = f (toInt32 (beNat c)) t := by
  rw [MH.bind_eq, shapefile_read_int32_be_h_app c t hc]

lemma MH.step_int32_le {β : Type} (c t : List Nat) (f : Int → MH β) (hc : c.length = 4) :
    (shapefile_read_int32_le_h >>= f) (c ++ t) = f (toInt32 (leNat c)) t := by
  rw [MH.bind_eq, shapefile_read_int32_le_h_app c t hc]

lemma MH.step_double_le {β : Type} (c t : List Nat) (f : Nat → MH β) (hc : c.length = 8) :
    (shapefile_read_double_le_h >>= f) (c ++ t) = f (leNat c) t := by
  rw [MH.bind_eq, shapefile_read_double_le_h_app c t hc]

lemma shapefile_read_int32_size_be_h_app (lo hi t : List Nat)
    (hlo : lo.length = 2) (hhi : hi.length = 2) :
    shapefile_read_int32_size_be_h (lo ++ (hi ++ t)) =
      (Except.ok (splitVal (toInt16 (beNat lo)) (toInt16 (beNat hi))), t) := by
  unfold shapefile_read_int32_size_be_h
  rw [MH.step_int16_be lo (hi ++ t) _ hlo]
  rw [MH.step_int16_be hi t _ hhi]
  rfl

lemma MH.step_size_be {β : Type} (lo hi t : List Nat) (f : Int → MH β)
    (hlo : lo.length = 2) (hhi : hi.length = 2) :
    (shapefile_read_int32_size_be_h >>= f) (lo ++ (hi ++ t)) =
      f (splitVal (toInt16 (beNat lo)) (toInt16 (beNat hi))) t := by
  rw [MH.bind_eq, shapefile_read_int32_size_be_h_app lo hi t hlo hhi]

/-- Full characterization of `shapefile_read_header` on a stream laid out
as the 17 header fields followed by anything: the reads consume exactly
100 bytes, then the magic, shape-type and length validations run in that
order. -/
lemma shapefile_read_header_spec
    (mag u0 u1 u2 u3 u4 lo hi ver ty d0 d1 d2 d3 d4 d5 d6 d7 rest : List Nat)
    (hm : mag.length = 4) (h0 : u0.length = 4) (h1 : u1.length = 4)
    (h2 : u2.length = 4) (h3 : u3.length = 4) (h4 : u4.length = 4)
    (hlo : lo.length = 2) (hhi : hi.length = 2)
    (hv : ver.length = 4) (ht : ty.length = 4)
    (e0 : d0.length = 8) (e1 : d1.length = 8) (e2 : d2.length = 8)
    (e3 : d3.length = 8) (e4 : d4.length = 8) (e5 : d5.length = 8)
    (e6 : d6.length = 8) (e7 : d7.length = 8) :
    shapefile_read_header
      (mag ++ (u0 ++ (u1 ++ (u2 ++ (u3 ++ (u4 ++ (lo ++ (hi ++ (ver ++ (ty ++
        (d0 ++ (d1 ++ (d2 ++ (d3 ++ (d4 ++ (d5 ++ (d6 ++ (d7 ++ rest)))))))))))))))))) =
      (if toInt32 (beNat mag) ≠ SHAPEFILE_HEADER_MAGIC then
        (Except.error (SfErr.badMagic (toInt32 (beNat mag))), rest)
      else if ¬ shapefile_type_valid (toInt32 (leNat ty)) then
        (Except.error (SfErr.badHeaderType (toInt32 (leNat ty))), rest)
      else if splitVal (toInt16 (beNat lo)) (toInt16 (beNat hi)) % 18446744073709551616 <
          SHAPEFILE_HEADER_SIZE then
        (Except.error (SfErr.tooShort (splitVal (toInt16 (beNat lo)) (toInt16 (beNat hi)))), rest)
      else
        (Except.ok ⟨toInt32 (beNat mag), splitVal (toInt16 (beNat lo)) (toInt16 (beNat hi)),
          toInt32 (leNat ver), toInt32 (leNat ty), leNat d0, leNat d1, leNat d2, leNat d3,
          leNat d4, leNat d5, leNat d6, leNat d7⟩, rest)) := by
  unfold shapefile_read_header
  rw [MH.step_int32_be mag _ _ hm]
  rw [MH.step_int32_be u0 _ _ h0]
  rw [MH.step_int32_be u1 _ _ h1]
  rw [MH.step_int32_be u2 _ _ h2]
  rw [MH.step_int32_be u3 _ _ h3]
  rw [MH.step_int32_be u4 _ _ h4]
  rw [MH.step_size_be lo hi _ _ hlo hhi]
  rw [MH.step_int32_le ver _ _ hv]
  rw [MH.step_int32_le ty _ _ ht]
  rw [MH.step_double_le d0 _ _ e0]
  rw [MH.step_double_le d1 _ _ e1]
  rw [MH.step_double_le d2 _ _ e2]
  rw [MH.step_double_le d3 _ _ e3]
  rw [MH.step_double_le d4 _ _ e4]
  rw [MH.step_double_le d5 _ _ e5]
  rw [MH.step_double_le d6 _ _ e6]
  rw [MH.step_double_le d7 _ _ e7]
  by_cases hmagic : toInt32 (beNat mag) ≠ SHAPEFILE_HEADER_MAGIC
  · rw [if_pos hmagic, if_pos hmagic]
    rfl
  · rw [if_neg hmagic, if_neg hmagic]
    by_cases hty : ¬ shapefile_type_valid (toInt32 (leNat ty))
    · rw [if_pos hty, if_pos hty]
      rfl
    · rw [if_neg hty, if_neg hty]
      by_cases hlen : splitVal (toInt16 (beNat lo)) (toInt16 (beNat hi)) % 18446744073709551616 <
        SHAPEFILE_HEADER_SIZE
      · rw [if_pos hlen, if_pos hlen]
        rfl
      · rw [if_neg hlen, if_neg hlen]
        rfl

/-! ### Short reads: every field read failure is an io error -/

lemma MH.step_ok {α β : Type} {m : MH α} {f : α → MH β} {s : SfStream}
    {a : α} {s1 : SfStream} (h : m s = (Except.ok a, s1)) :
    (m >>= f) s = f a s1 := by
  rw [MH.bind_eq, h]

lemma MH.step_err {α β : Type} {m : MH α} {f : α → MH β} {s : SfStream}
    {e : SfErr} {s1 : SfStream} (h : m s = (Except.error e, s1)) :
    (m >>= f) s = (Except.error e, s1) := by
  rw [MH.bind_eq, h]

lemma MR.step_ok_r {α β : Type} {m : MR α} {f : α → MR β} {s : SfStream} {l : Int}
    {a : α} {s1 : SfStream} {l1 : Int} (h : m s l = (Except.ok a, s1, l1)) :
    (m >>= f) s l = f a s1 l1 := by
  rw [MR.bind_eq_r, h]

lemma MR.step_err_r {α β : Type} {m : MR α} {f : α → MR β} {s : SfStream} {l : Int}
    {e : SfErr} {s1 : SfStream} {l1 : Int} (h : m s l = (Except.error e, s1, l1)) :
    (m >>= f) s l = (Except.error e, s1, l1) := by
  rw [MR.bind_eq_r, h]

/-- An `MH` action that reads exactly `n` bytes: on a long enough stream
it succeeds consuming `n` bytes, on a shorter stream it fails with an io
error after draining the stream. -/
def MH.IsRead {α : Type} (m : MH α) (n : Nat) : Prop :=
  ∀ s : SfStream,
    (n ≤ s.length → ∃ a, m s = (Except.ok a, s.drop n)) ∧
    (s.length < n → ∃ w g, m s = (Except.error (SfErr.ioError w g), []))

/-- An `MH` action that fails with an io error whenever the stream is
shorter than `n` bytes. -/
def MH.ShortFail {α : Type} (m : MH α) (n : Nat) : Prop :=
  ∀ s : SfStream, s.length < n → ∃ w g, m s = (Except.error (SfErr.ioError w g), [])

lemma MH.isRead_read_h (n : Nat) : MH.IsRead (shapefile_read_h n) n := by
  intro s
  constructor
  · intro h
    exact ⟨s.take n, by unfold shapefile_read_h; rw [if_pos h]⟩
  · intro h
    refine ⟨n, s.length, ?_⟩
    unfold shapefile_read_h
    rw [if_neg (by omega), List.drop_eq_nil_of_le (by omega)]

lemma MH.isRead_map {α β : Type} {m : MH α} {n : Nat} (g : α → β)
    (hm : MH.IsRead m n) : MH.IsRead (m >>= fun a => pure (g a)) n := by
  intro s
  obtain ⟨hok, herr⟩ := hm s
  constructor
  · intro h
    obtain ⟨a, ha⟩ := hok h
    exact ⟨g a, by rw [MH.step_ok ha]; rfl⟩
  · intro h
    obtain ⟨w, gg, ha⟩ := herr h
    exact ⟨w, gg, MH.step_err ha⟩

lemma MH.isRead_bind {α β : Type} {m : MH α} {f : α → MH β} {n p : Nat}
    (hm : MH.IsRead m n) (hf : ∀ a, MH.IsRead (f a) p) :
    MH.IsRead (m >>= f) (n + p) := by
  intro s
  constructor
  · intro h
    obtain ⟨a, ha⟩ := (hm s).1 (by omega)
    obtain ⟨b, hb⟩ := (hf a (s.drop n)).1 (by simp; omega)
    refine ⟨b, ?_⟩
    rw [MH.step_ok ha, hb, List.drop_drop]
  · intro h
    by_cases hn : s.length < n
    · obtain ⟨w, g, ha⟩ := (hm s).2 hn
      exact ⟨w, g, MH.step_err ha⟩
    · obtain ⟨a, ha⟩ := (hm s).1 (by omega)
      obtain ⟨w, g, hb⟩ := (hf a (s.drop n)).2 (by simp; omega)
      exact ⟨w, g, by rw [MH.step_ok ha, hb]⟩

lemma MH.shortFail_zero {α : Type} (m : MH α) : MH.ShortFail m 0 := by
  intro s h
  omega

lemma MH.shortFail_bind {α β : Type} {m : MH α} {f : α → MH β} {n p : Nat}
    (hm : MH.IsRead m n) (hf : ∀ a, MH.ShortFail (f a) p) :
    MH.ShortFail (m >>= f) (n + p) := by
  intro s h
  by_cases hn : s.length < n
  · obtain ⟨w, g, ha⟩ := (hm s).2 hn
    exact ⟨w, g, MH.step_err ha⟩
  · obtain ⟨a, ha⟩ := (hm s).1 (by omega)
    obtain ⟨w, g, hb⟩ := hf a (s.drop n) (by simp; omega)
    exact ⟨w, g, by rw [MH.step_ok ha, hb]⟩

lemma MH.isRead_int16_be_h : MH.IsRead shapefile_read_int16_be_h 2 :=
  MH.isRead_map _ (MH.isRead_read_h 2)

lemma MH.isRead_int32_be_h : MH.IsRead shapefile_read_int32_be_h 4 :=
  MH.isRead_map _ (MH.isRead_read_h 4)

lemma MH.isRead_int32_le_h : MH.IsRead shapefile_read_int32_le_h 4 :=
  MH.isRead_map _ (MH.isRead_read_h 4)

lemma MH.isRead_double_le_h : MH.IsRead shapefile_read_double_le_h 8 :=
  MH.isRead_map _ (MH.isRead_read_h 8)

lemma MH.isRead_size_be_h : MH.IsRead shapefile_read_int32_size_be_h 4 :=
  MH.isRead_bind MH.isRead_int16_be_h fun _ =>
    MH.isRead_map _ MH.isRead_int16_be_h

/-- A stream shorter than the 100-byte header makes `shapefile_read_header`
fail with an io error (never a validation error), draining the stream. -/
lemma shapefile_read_header_short (s : SfStream) (hs : s.length < 100) :
    ∃ w g, shapefile_read_header s = (Except.error (SfErr.ioError w g), []) := by
  have h : MH.ShortFail shapefile_read_header
      (4+(4+(4+(4+(4+(4+(4+(4+(4+(8+(8+(8+(8+(8+(8+(8+(8+0))))))))))))))))) := by
    unfold shapefile_read_header
    apply MH.shortFail_bind MH.isRead_int32_be_h; intro code
    apply MH.shortFail_bind MH.isRead_int32_be_h; intro u0
    apply MH.shortFail_bind MH.isRead_int32_be_h; intro u1
    apply MH.shortFail_bind MH.isRead_int32_be_h; intro u2
    apply MH.shortFail_bind MH.isRead_int32_be_h; intro u3
    apply MH.shortFail_bind MH.isRead_int32_be_h; intro u4
    apply MH.shortFail_bind MH.isRead_size_be_h; intro len
    apply MH.shortFail_bind MH.isRead_int32_le_h; intro version
    apply MH.shortFail_bind MH.isRead_int32_le_h; intro ty
    apply MH.shortFail_bind MH.isRead_double_le_h; intro d0
    apply MH.shortFail_bind MH.isRead_double_le_h; intro d1
    apply MH.shortFail_bind MH.isRead_double_le_h; intro d2
    apply MH.shortFail_bind MH.isRead_double_le_h; intro d3
    apply MH.shortFail_bind MH.isRead_double_le_h; intro d4
    apply MH.shortFail_bind MH.isRead_double_le_h; intro d5
    apply MH.shortFail_bind MH.isRead_double_le_h; intro d6
    apply MH.shortFail_bind MH.isRead_double_le_h; intro d7
    exact MH.shortFail_zero _
  exact h s (by omega)

/-! ### Value lemmas and byte builders for concrete and symbolic files -/

lemma beNat_pair (a b : Nat) : beNat [a, b] = a * 256 + b := by
  simp [beNat, List.foldl]

lemma leNat_quad (a b c d : Nat) :
    leNat [a, b, c, d] = a + 256 * (b + 256 * (c + 256 * d)) := by
  simp [leNat, List.foldr]
  ring

lemma u16_toInt16 (x : Nat) : u16 (toInt16 x) = x % 65536 := by
  unfold u16 toInt16
  split <;> omega

lemma toInt32_small (x : Nat) (h : x < 2147483648) : toInt32 x = x := by
  unfold toInt32
  split <;> omega

lemma splitVal_encode (v : Nat) (h : v < 2147483648) :
    splitVal (toInt16 (v % 65536)) (toInt16 (v / 65536)) = v := by
  unfold splitVal
  rw [u16_toInt16, u16_toInt16]
  have hmod : v / 65536 % 65536 * 65536 + v % 65536 % 65536 = v := by omega
  rw [hmod]
  exact toInt32_small v h

/-- Encode a value below `2^16` as two big-endian bytes. -/
def encBE16 (x : Nat) : List Nat := [x / 256 % 256, x % 256]

lemma encBE16_length (x : Nat) : (encBE16 x).length = 2 := rfl

lemma beNat_encBE16 (x : Nat) : beNat (encBE16 x) = x % 65536 := by
  unfold encBE16
  rw [beNat_pair]
  omega

lemma splitVal_encBE16 (v : Nat) (h : v < 2147483648) :
    splitVal (toInt16 (beNat (encBE16 (v % 65536)))) (toInt16 (beNat (encBE16 (v / 65536)))) = v := by
  rw [beNat_encBE16, beNat_encBE16]
  have h1 : v % 65536 % 65536 = v % 65536 := by omega
  have h2 : v / 65536 % 65536 = v / 65536 := by omega
  rw [h1, h2]
  exact splitVal_encode v h

/-- In the valid region the wrapped budget is the plain difference. -/
lemma shp_loop_budget_eq (len : Int) (h1 : 100 ≤ len) (h2 : len < 2147483648) :
    shp_loop_budget len = len - 100 := by
  unfold shp_loop_budget toInt32 SHAPEFILE_HEADER_SIZE
  split <;> omega

/-- A 100-byte header image: valid magic, zero reserved words, file
length `v` in the split big-endian field, version 0, shape type `ty`
(one little-endian byte), zero bounding box and ranges — followed by
`rest`. -/
def mkHeaderBytes (v ty : Nat) (rest : SfStream) : SfStream :=
  [0, 0, 39, 10] ++ ([0, 0, 0, 0] ++ ([0, 0, 0, 0] ++ ([0, 0, 0, 0] ++ ([0, 0, 0, 0] ++
    ([0, 0, 0, 0] ++ (encBE16 (v % 65536) ++ (encBE16 (v / 65536) ++ ([0, 0, 0, 0] ++
    ([ty, 0, 0, 0] ++ ([0, 0, 0, 0, 0, 0, 0, 0] ++ ([0, 0, 0, 0, 0, 0, 0, 0] ++
    ([0, 0, 0, 0, 0, 0, 0, 0] ++ ([0, 0, 0, 0, 0, 0, 0, 0] ++ ([0, 0, 0, 0, 0, 0, 0, 0] ++
    ([0, 0, 0, 0, 0, 0, 0, 0] ++ ([0, 0, 0, 0, 0, 0, 0, 0] ++ ([0, 0, 0, 0, 0, 0, 0, 0] ++
    rest)))))))))))))))))

/-- Reading `mkHeaderBytes v ty rest` with a valid type and a length of at
least the header size succeeds, storing the length field value `v` as-is
(no doubling) and leaving exactly `rest` unread. -/
lemma mkHeaderBytes_spec (v ty : Nat) (rest : SfStream)
    (hv31 : v < 2147483648) (hv : 100 ≤ v) (hty : ty < 128)
    (hvalid : shapefile_type_valid (ty : Int) = true) :
    shapefile_read_header (mkHeaderBytes v ty rest) =
      (Except.ok ⟨9994, (v : Int), 0, (ty : Int), 0, 0, 0, 0, 0, 0, 0, 0⟩, rest) := by
  unfold mkHeaderBytes
  rw [shapefile_read_header_spec [0, 0, 39, 10] [0, 0, 0, 0] [0, 0, 0, 0] [0, 0, 0, 0]
    [0, 0, 0, 0] [0, 0, 0, 0] (encBE16 (v % 65536)) (encBE16 (v / 65536)) [0, 0, 0, 0]
    [ty, 0, 0, 0] [0, 0, 0, 0, 0, 0, 0, 0] [0, 0, 0, 0, 0, 0, 0, 0] [0, 0, 0, 0, 0, 0, 0, 0] [0, 0, 0, 0, 0, 0, 0, 0]
    [0, 0, 0, 0, 0, 0, 0, 0] [0, 0, 0, 0, 0, 0, 0, 0] [0, 0, 0, 0, 0, 0, 0, 0] [0, 0, 0, 0, 0, 0, 0, 0] rest
    rfl rfl rfl rfl rfl rfl (encBE16_length _) (encBE16_length _) rfl rfl
    rfl rfl rfl rfl rfl rfl rfl rfl]
  rw [splitVal_encBE16 v hv31]
  have hmag : toInt32 (beNat [0, 0, 39, 10]) = 9994 := by decide
  have htyv : toInt32 (leNat [ty, 0, 0, 0]) = (ty : Int) := by
    rw [leNat_quad]
    simp only [Nat.mul_zero, Nat.add_zero]
    exact toInt32_small ty (by omega)
  rw [hmag, htyv]
  rw [if_neg (by simp [SHAPEFILE_HEADER_MAGIC])]
  rw [if_neg (by simp [hvalid])]
  rw [if_neg (by simp only [SHAPEFILE_HEADER_SIZE]; omega)]
  have hver : toInt32 (leNat [0, 0, 0, 0]) = 0 := by decide
  rw [hver]
  have hd : leNat [0, 0, 0, 0, 0, 0, 0, 0] = 0 := by decide
  simp [hd]

/-- The always-succeeding allocation oracle. -/
def oracleT : Nat → Bool := fun _ => true

/-- A tracing consumer callback: appends every delivered shape to its
state and always continues. -/
def cbTrace : SfCallback (List (Option shapefile_shape_t)) :=
  fun sh l => (true, l ++ [sh])

/-- A counting consumer callback: its state is the number of invocations
so far; invocation number `n` (0-based) continues iff `f n shape`. -/
def cbCount (f : Nat → Option shapefile_shape_t → Bool) : SfCallback Nat :=
  fun sh n => (f n sh, n + 1)

/-- `N` consecutive Null-type records: each is an 8-byte record header
(number 0, content length 0) followed by the 4-byte little-endian Null
shape-type tag and no payload. -/
def nullRecords : Nat → SfStream
  | 0 => []
  | N + 1 => [0, 0, 0, 0, 0, 0, 0, 0, 0, 0, 0, 0] ++ nullRecords N

lemma oracleT_true (k : Nat) : oracleT k = true := rfl

/-- Decoding a record whose shape-type tag is Null: the tag is consumed,
the shape container is allocated, and no payload bytes are read. -/
lemma shapefile_read_shp_record_null_tag {oracle : Nat → Bool} {k : Nat}
    (rh : shapefile_shp_record_header_t) (t : SfStream) (l : Int)
    (horacle : oracle k = true) :
    shapefile_read_shp_record oracle k rh (0 :: 0 :: 0 :: 0 :: t) l =
      RecordResult.ok ⟨0, some ⟨0, none⟩⟩ t (l - 4) (k + 1) := by
  unfold shapefile_read_shp_record shapefile_shape_new
  rw [shapefile_read_int32_le_r_chunk 0 0 0 0 t l, horacle]
  rfl

/-! ### One-step equations for the record loop -/

lemma shapefile_parse_shp_loop_eq_exit {σ : Type} (oracle : Nat → Bool)
    (cb : Option (SfCallback σ)) (ud : σ) (stop : Bool) (k : Nat) (s : SfStream) (len : Int)
    (h : stop = true ∨ len ≤ 0) :
    shapefile_parse_shp_loop oracle cb ud stop k s len = LoopResult.ok ud stop s len k := by
  rw [shapefile_parse_shp_loop, if_pos h]

lemma shapefile_parse_shp_loop_eq_fail_hdr {σ : Type} (oracle : Nat → Bool)
    (cb : Option (SfCallback σ)) (ud : σ) (stop : Bool) (k : Nat) (s : SfStream) (len : Int)
    (h : ¬(stop = true ∨ len ≤ 0)) {e : SfErr} {s1 : SfStream} {l1 : Int}
    (hh : shapefile_read_shp_record_header s len = (Except.error e, s1, l1)) :
    shapefile_parse_shp_loop oracle cb ud stop k s len = LoopResult.fail e ud s1 l1 k := by
  rw [shapefile_parse_shp_loop, if_neg h]
  split
  · rename_i e' s1' l1' heq
    rw [hh] at heq
    simp only [Prod.mk.injEq, Except.error.injEq] at heq
    obtain ⟨h1, h2, h3⟩ := heq
    rw [h1, h2, h3]
  · rename_i rh' s1' l1' heq
    rw [hh] at heq
    simp at heq

lemma shapefile_parse_shp_loop_eq_fail_rec {σ : Type} (oracle : Nat → Bool)
    (cb : Option (SfCallback σ)) (ud : σ) (stop : Bool) (k : Nat) (s : SfStream) (len : Int)
    (h : ¬(stop = true ∨ len ≤ 0))
    {rh : shapefile_shp_record_header_t} {s1 : SfStream} {l1 : Int}
    (hh : shapefile_read_shp_record_header s len = (Except.ok rh, s1, l1))
    {e : SfErr} {s2 : SfStream} {l2 : Int} {k2 : Nat}
    (hr : shapefile_read_shp_record oracle k rh s1 l1 = RecordResult.fail e s2 l2 k2) :
    shapefile_parse_shp_loop oracle cb ud stop k s len = LoopResult.fail e ud s2 l2 k2 := by
  rw [shapefile_parse_shp_loop, if_neg h]
  split
  · rename_i e' s1' l1' heq
    rw [hh] at heq
    simp at heq
  · rename_i rh' s1' l1' heq
    rw [hh] at heq
    simp only [Prod.mk.injEq, Except.ok.injEq] at heq
    obtain ⟨h1, h2, h3⟩ := heq
    subst h1 h2 h3
    split
    · rename_i e' s2' l2' k2' heq2
      rw [hr] at heq2
      simp only [RecordResult.fail.injEq] at heq2
      obtain ⟨h1, h2, h3, h4⟩ := heq2
      subst h1 h2 h3 h4
      rfl
    · rename_i heq2
      rw [hr] at heq2
      simp at heq2
    · rename_i rec' s2' l2' k2' heq2
      rw [hr] at heq2
      simp at heq2

lemma shapefile_parse_shp_loop_eq_crash_rec {σ : Type} (oracle : Nat → Bool)
    (cb : Option (SfCallback σ)) (ud : σ) (stop : Bool) (k : Nat) (s : SfStream) (len : Int)
    (h : ¬(stop = true ∨ len ≤ 0))
    {rh : shapefile_shp_record_header_t} {s1 : SfStream} {l1 : Int}
    (hh : shapefile_read_shp_record_header s len = (Except.ok rh, s1, l1))
    (hr : shapefile_read_shp_record oracle k rh s1 l1 = RecordResult.crash) :
    shapefile_parse_shp_loop oracle cb ud stop k s len = LoopResult.crash := by
  rw [shapefile_parse_shp_loop, if_neg h]
  split
  · rename_i e' s1' l1' heq
    rw [hh] at heq
    simp at heq
  · rename_i rh' s1' l1' heq
    rw [hh] at heq
    simp only [Prod.mk.injEq, Except.ok.injEq] at heq
    obtain ⟨h1, h2, h3⟩ := heq
    subst h1 h2 h3
    split
    · rename_i e' s2' l2' k2' heq2
      rw [hr] at heq2
      simp at heq2
    · rfl
    · rename_i rec' s2' l2' k2' heq2
      rw [hr] at heq2
      simp at heq2

lemma shapefile_parse_shp_loop_eq_cont {σ : Type} (oracle : Nat → Bool)
    (c : SfCallback σ) (ud : σ) (stop : Bool) (k : Nat) (s : SfStream) (len : Int)
    (h : ¬(stop = true ∨ len ≤ 0))
    {rh : shapefile_shp_record_header_t} {s1 : SfStream} {l1 : Int}
    (hh : shapefile_read_shp_record_header s len = (Except.ok rh, s1, l1))
    {rec : shapefile_shp_record_t} {s2 : SfStream} {l2 : Int} {k2 : Nat}
    (hr : shapefile_read_shp_record oracle k rh s1 l1 = RecordResult.ok rec s2 l2 k2)
    {sh : shapefile_shape_t} (hsh : rec.shape = some sh) :
    shapefile_parse_shp_loop oracle (some c) ud stop k s len =
      shapefile_parse_shp_loop oracle (some c) (c rec.shape ud).2 (!(c rec.shape ud).1) k2 s2 l2 := by
  rw [shapefile_parse_shp_loop, if_neg h]
  split
  · rename_i e' s1' l1' heq
    rw [hh] at heq
    simp at heq
  · rename_i rh' s1' l1' heq
    rw [hh] at heq
    simp only [Prod.mk.injEq, Except.ok.injEq] at heq
    obtain ⟨h1, h2, h3⟩ := heq
    subst h1 h2 h3
    split
    · rename_i e' s2' l2' k2' heq2
      rw [hr] at heq2
      simp at heq2
    · rename_i heq2
      rw [hr] at heq2
      simp at heq2
    · rename_i rec' s2' l2' k2' heq2
      rw [hr] at heq2
      simp only [RecordResult.ok.injEq] at heq2
      obtain ⟨h1, h2, h3, h4⟩ := heq2
      subst h1 h2 h3 h4
      rw [hsh]
      rfl

lemma shapefile_parse_shp_loop_eq_free_crash {σ : Type} (oracle : Nat → Bool)
    (c : SfCallback σ) (ud : σ) (stop : Bool) (k : Nat) (s : SfStream) (len : Int)
    (h : ¬(stop = true ∨ len ≤ 0))
    {rh : shapefile_shp_record_header_t} {s1 : SfStream} {l1 : Int}
    (hh : shapefile_read_shp_record_header s len = (Except.ok rh, s1, l1))
    {rec : shapefile_shp_record_t} {s2 : SfStream} {l2 : Int} {k2 : Nat}
    (hr : shapefile_read_shp_record oracle k rh s1 l1 = RecordResult.ok rec s2 l2 k2)
    (hsh : rec.shape = none) :
    shapefile_parse_shp_loop oracle (some c) ud stop k s len = LoopResult.crash := by
  rw [shapefile_parse_shp_loop, if_neg h]
  split
  · rename_i e' s1' l1' heq
    rw [hh] at heq
    simp at heq
  · rename_i rh' s1' l1' heq
    rw [hh] at heq
    simp only [Prod.mk.injEq, Except.ok.injEq] at heq
    obtain ⟨h1, h2, h3⟩ := heq
    subst h1 h2 h3
    split
    · rename_i e' s2' l2' k2' heq2
      rw [hr] at heq2
      simp at heq2
    · rename_i heq2
      rw [hr] at heq2
    · rename_i rec' s2' l2' k2' heq2
      rw [hr] at heq2
      simp only [RecordResult.ok.injEq] at heq2
      obtain ⟨h1, h2, h3, h4⟩ := heq2
      subst h1 h2 h3 h4
      rw [hsh]
      rfl

/-- Iterating the record loop over `N` Null records with an exact budget
of `12 * N` bytes and an always-continue tracing consumer: every record
is delivered in order, the budget reaches 0 and the stream is drained. -/
lemma loop_nullRecords (N : Nat) :
    ∀ (ud : List (Option shapefile_shape_t)) (k : Nat),
      shapefile_parse_shp_loop oracleT (some cbTrace) ud false k (nullRecords N) (12 * N) =
        LoopResult.ok (ud ++ List.replicate N (some ⟨0, none⟩)) false [] 0 (k + N) := by
  induction N with
  | zero =>
    intro ud k
    rw [shapefile_parse_shp_loop_eq_exit _ _ _ _ _ _ _ (by norm_num)]
    norm_num [nullRecords]
  | succ n ih =>
    intro ud k
    have hh : shapefile_read_shp_record_header (nullRecords (n + 1)) (12 * ((n : Int) + 1)) =
        (Except.ok ⟨toInt32 (beNat [0, 0, 0, 0]),
          splitVal (toInt16 (beNat [0, 0])) (toInt16 (beNat [0, 0]))⟩,
         0 :: 0 :: 0 :: 0 :: nullRecords n, 12 * ((n : Int) + 1) - 8) :=
      shapefile_read_shp_record_header_chunk 0 0 0 0 0 0 0 0
        (0 :: 0 :: 0 :: 0 :: nullRecords n) (12 * ((n : Int) + 1))
    have hr := @shapefile_read_shp_record_null_tag oracleT k
      ⟨toInt32 (beNat [0, 0, 0, 0]), splitVal (toInt16 (beNat [0, 0])) (toInt16 (beNat [0, 0]))⟩
      (nullRecords n) (12 * ((n : Int) + 1) - 8) (oracleT_true k)
    have hstep := shapefile_parse_shp_loop_eq_cont oracleT cbTrace ud false k
      (nullRecords (n + 1)) (12 * ((n : Int) + 1))
      (by simp) hh hr rfl
    rw [show (12 : Int) * (↑n + 1) = 12 * ((n : Nat) + 1 : Nat) from by push_cast; ring] at hstep
    rw [hstep]
    show shapefile_parse_shp_loop oracleT (some cbTrace) (ud ++ [some ⟨0, none⟩]) false (k + 1)
      (nullRecords n) (12 * ((n + 1 : Nat) : Int) - 8 - 4) = _
    rw [show 12 * ((n + 1 : Nat) : Int) - 8 - 4 = 12 * (n : Int) from by push_cast; ring]
    rw [ih (ud ++ [(some ⟨0, none⟩ : Option shapefile_shape_t)]) (k + 1)]
    rw [List.append_assoc]
    norm_num [List.replicate_succ]
    omega

/-! ### Claim theorems -/

/-- C2: the split-BE 32-bit length decoder reads two big-endian 16-bit
halves, low half first, and returns `(high << 16) | (low & 0xFFFF)` in
32-bit two's complement; on the bytes `[0x00,0x01, 0x00,0x02]` it yields
`131073`, not the naive big-endian interpretation `65538`. -/
theorem C2_split_be_decoder (b0 b1 b2 b3 : Nat)
    (h0 : b0 < 256) (h1 : b1 < 256) (h2 : b2 < 256) (h3 : b3 < 256)
    (t : SfStream) (l : Int) :
    shapefile_read_int32_size_be_r (b0 :: b1 :: b2 :: b3 :: t) l =
      (Except.ok (toInt32 ((b2 * 256 + b3) * 65536 + (b0 * 256 + b1))), t, l - 4) ∧
    (shapefile_read_int32_size_be_h [0, 1, 0, 2]).1 = Except.ok 131073 ∧
    (131073 : Int) = 2 * 65536 + 1 ∧
    toInt32 (beNat [0, 1, 0, 2]) = 65538 ∧
    (131073 : Int) ≠ 65538 := by
  refine ⟨?_, by rfl, by decide, by decide, by decide⟩
  rw [shapefile_read_int32_size_be_r_chunk]
  have hv : splitVal (toInt16 (beNat [b0, b1])) (toInt16 (beNat [b2, b3])) =
      toInt32 ((b2 * 256 + b3) * 65536 + (b0 * 256 + b1)) := by
    rw [beNat_pair, beNat_pair]
    unfold splitVal
    rw [u16_toInt16, u16_toInt16]
    rw [Nat.mod_eq_of_lt (show b2 * 256 + b3 < 65536 by omega),
      Nat.mod_eq_of_lt (show b0 * 256 + b1 < 65536 by omega)]
  rw [hv]

/-- Witness for C2 at the concrete bytes `[0, 1, 0, 2]`. -/
theorem C2_split_be_decoder_witness :
    (0 : Nat) < 256 ∧ (1 : Nat) < 256 ∧ (2 : Nat) < 256 ∧
    shapefile_read_int32_size_be_r [0, 1, 0, 2] 100 = (Except.ok 131073, [], 96) := by
  refine ⟨by norm_num, by norm_num, by norm_num, ?_⟩
  have h := (C2_split_be_decoder 0 1 0 2 (by norm_num) (by norm_num) (by norm_num)
    (by norm_num) [] 100).1
  norm_num [toInt32] at h
  exact h

/-- C1 counterexample: neither length is doubled.  A header whose split-BE
length field decodes to 112 is stored as 112 (not 224) and yields a loop
budget of 12 bytes (not `2 * 112 - 100 = 124`); a record header whose
split-BE content-length field decodes to 2 stores 2 (not 4). -/
theorem C1_counterexample :
    shapefile_read_header (mkHeaderBytes 112 0 []) =
      (Except.ok ⟨9994, 112, 0, 0, 0, 0, 0, 0, 0, 0, 0, 0⟩, []) ∧
    (112 : Int) ≠ 2 * 112 ∧
    (112 : Int) - SHAPEFILE_HEADER_SIZE = 12 ∧
    (12 : Int) ≠ 2 * 112 - 100 ∧
    shapefile_read_shp_record_header [0, 0, 0, 1, 0, 2, 0, 0] 100 =
      (Except.ok ⟨1, 2⟩, [], 92) ∧
    (2 : Int) ≠ 2 * 2 := by
  refine ⟨by rfl, by decide, by decide, by decide, by rfl, by decide⟩

/-- C1 amended: the record content-length field and the header file-length
field are stored in memory exactly as decoded by the split-BE read — as
raw 16-bit-word counts, never doubled to bytes. -/
theorem C1_no_doubling :
    (∀ (b0 b1 b2 b3 b4 b5 b6 b7 : Nat), b4 < 256 → b5 < 256 → b6 < 256 → b7 < 256 →
      ∀ (t : SfStream) (l : Int),
      shapefile_read_shp_record_header (b0 :: b1 :: b2 :: b3 :: b4 :: b5 :: b6 :: b7 :: t) l =
        (Except.ok ⟨toInt32 (beNat [b0, b1, b2, b3]),
          toInt32 ((b6 * 256 + b7) * 65536 + (b4 * 256 + b5))⟩, t, l - 8)) ∧
    (∀ (v ty : Nat) (rest : SfStream), v < 2147483648 → 100 ≤ v → ty < 128 →
      shapefile_type_valid (ty : Int) = true →
      shapefile_read_header (mkHeaderBytes v ty rest) =
        (Except.ok ⟨9994, (v : Int), 0, (ty : Int), 0, 0, 0, 0, 0, 0, 0, 0⟩, rest)) := by
  constructor
  · intro b0 b1 b2 b3 b4 b5 b6 b7 h4 h5 h6 h7 t l
    rw [shapefile_read_shp_record_header_chunk]
    have hv : splitVal (toInt16 (beNat [b4, b5])) (toInt16 (beNat [b6, b7])) =
        toInt32 ((b6 * 256 + b7) * 65536 + (b4 * 256 + b5)) := by
      rw [beNat_pair, beNat_pair]
      unfold splitVal
      rw [u16_toInt16, u16_toInt16]
      rw [Nat.mod_eq_of_lt (show b6 * 256 + b7 < 65536 by omega),
        Nat.mod_eq_of_lt (show b4 * 256 + b5 < 65536 by omega)]
    rw [hv]
  · intro v ty rest hv31 hv hty hvalid
    exact mkHeaderBytes_spec v ty rest hv31 hv hty hvalid

/-- Witness for the amended C1 at concrete inputs. -/
theorem C1_no_doubling_witness :
    (0 : Nat) < 256 ∧ (2 : Nat) < 256 ∧ (112 : Nat) < 2147483648 ∧ (100 : Nat) ≤ 112 ∧
    (0 : Nat) < 128 ∧ shapefile_type_valid ((0 : Nat) : Int) = true ∧
    shapefile_read_shp_record_header [0, 0, 0, 1, 0, 2, 0, 0] 100 =
      (Except.ok ⟨toInt32 (beNat [0, 0, 0, 1]),
        toInt32 ((0 * 256 + 0) * 65536 + (0 * 256 + 2))⟩, [], 100 - 8) ∧
    shapefile_read_header (mkHeaderBytes 112 0 []) =
      (Except.ok ⟨9994, ((112 : Nat) : Int), 0, ((0 : Nat) : Int), 0, 0, 0, 0, 0, 0, 0, 0⟩, []) := by
  refine ⟨by norm_num, by norm_num, by norm_num, by norm_num, by norm_num, by decide, ?_, ?_⟩
  · exact (C1_no_doubling.1) 0 0 0 1 0 2 0 0 (by norm_num) (by norm_num) (by norm_num) (by norm_num) [] 100
  · exact (C1_no_doubling.2) 112 0 [] (by norm_num) (by norm_num) (by norm_num) (by decide)

/-! ### Frame lemmas: a successful read is unaffected by appended bytes -/

lemma shapefile_read_r_frame {n : Nat} {s : SfStream} {l : Int} {b : List Nat}
    {s1 : SfStream} {l1 : Int} (t : SfStream)
    (h : shapefile_read_r n s l = (Except.ok b, s1, l1)) :
    shapefile_read_r n (s ++ t) l = (Except.ok b, s1 ++ t, l1) := by
  obtain ⟨hn, hb, hs, hl⟩ := shapefile_read_r_ok h
  subst hb hs hl
  unfold shapefile_read_r
  rw [if_pos (by simp; omega)]
  rw [List.take_append_of_le_length hn, List.drop_append_of_le_length hn]

lemma shapefile_read_int32_le_r_frame {s : SfStream} {l : Int} {v : Int}
    {s1 : SfStream} {l1 : Int} (t : SfStream)
    (h : shapefile_read_int32_le_r s l = (Except.ok v, s1, l1)) :
    shapefile_read_int32_le_r (s ++ t) l = (Except.ok v, s1 ++ t, l1) := by
  unfold shapefile_read_int32_le_r at h ⊢
  obtain ⟨a, s2, l2, hm, hf⟩ := MR.bind_ok_r h
  rw [MR.step_ok_r (shapefile_read_r_frame t hm)]
  rw [MR.pure_eq_r] at hf
  simp only [Prod.mk.injEq, Except.ok.injEq] at hf
  obtain ⟨h1, h2, h3⟩ := hf
  subst h1 h2 h3
  rfl

lemma shapefile_read_int32_be_r_frame {s : SfStream} {l : Int} {v : Int}
    {s1 : SfStream} {l1 : Int} (t : SfStream)
    (h : shapefile_read_int32_be_r s l = (Except.ok v, s1, l1)) :
    shapefile_read_int32_be_r (s ++ t) l = (Except.ok v, s1 ++ t, l1) := by
  unfold shapefile_read_int32_be_r at h ⊢
  obtain ⟨a, s2, l2, hm, hf⟩ := MR.bind_ok_r h
  rw [MR.step_ok_r (shapefile_read_r_frame t hm)]
  rw [MR.pure_eq_r] at hf
  simp only [Prod.mk.injEq, Except.ok.injEq] at hf
  obtain ⟨h1, h2, h3⟩ := hf
  subst h1 h2 h3
  rfl

lemma shapefile_read_int16_be_r_frame {s : SfStream} {l : Int} {v : Int}
    {s1 : SfStream} {l1 : Int} (t : SfStream)
    (h : shapefile_read_int16_be_r s l = (Except.ok v, s1, l1)) :
    shapefile_read_int16_be_r (s ++ t) l = (Except.ok v, s1 ++ t, l1) := by
  unfold shapefile_read_int16_be_r at h ⊢
  obtain ⟨a, s2, l2, hm, hf⟩ := MR.bind_ok_r h
  rw [MR.step_ok_r (shapefile_read_r_frame t hm)]
  rw [MR.pure_eq_r] at hf
  simp only [Prod.mk.injEq, Except.ok.injEq] at hf
  obtain ⟨h1, h2, h3⟩ := hf
  subst h1 h2 h3
  rfl

lemma shapefile_read_double_le_r_frame {s : SfStream} {l : Int} {v : Nat}
    {s1 : SfStream} {l1 : Int} (t : SfStream)
    (h : shapefile_read_double_le_r s l = (Except.ok v, s1, l1)) :
    shapefile_read_double_le_r (s ++ t) l = (Except.ok v, s1 ++ t, l1) := by
  unfold shapefile_read_double_le_r at h ⊢
  obtain ⟨a, s2, l2, hm, hf⟩ := MR.bind_ok_r h
  rw [MR.step_ok_r (shapefile_read_r_frame t hm)]
  rw [MR.pure_eq_r] at hf
  simp only [Prod.mk.injEq, Except.ok.injEq] at hf
  obtain ⟨h1, h2, h3⟩ := hf
  subst h1 h2 h3
  rfl

lemma shapefile_read_int32_size_be_r_frame {s : SfStream} {l : Int} {v : Int}
    {s1 : SfStream} {l1 : Int} (t : SfStream)
    (h : shapefile_read_int32_size_be_r s l = (Except.ok v, s1, l1)) :
    shapefile_read_int32_size_be_r (s ++ t) l = (Except.ok v, s1 ++ t, l1) := by
  unfold shapefile_read_int32_size_be_r at h ⊢
  obtain ⟨a, s2, l2, hm, hf⟩ := MR.bind_ok_r h
  obtain ⟨a2, s3, l3, hm2, hf2⟩ := MR.bind_ok_r hf
  rw [MR.step_ok_r (shapefile_read_int16_be_r_frame t hm)]
  rw [MR.step_ok_r (shapefile_read_int16_be_r_frame t hm2)]
  rw [MR.pure_eq_r] at hf2
  simp only [Prod.mk.injEq, Except.ok.injEq] at hf2
  obtain ⟨h1, h2, h3⟩ := hf2
  subst h1 h2 h3
  rfl

lemma shapefile_read_shp_record_header_frame {s : SfStream} {l : Int}
    {rh : shapefile_shp_record_header_t} {s1 : SfStream} {l1 : Int} (t : SfStream)
    (h : shapefile_read_shp_record_header s l = (Except.ok rh, s1, l1)) :
    shapefile_read_shp_record_header (s ++ t) l = (Except.ok rh, s1 ++ t, l1) := by
  unfold shapefile_read_shp_record_header at h ⊢
  obtain ⟨a, s2, l2, hm, hf⟩ := MR.bind_ok_r h
  obtain ⟨a2, s3, l3, hm2, hf2⟩ := MR.bind_ok_r hf
  rw [MR.step_ok_r (shapefile_read_int32_be_r_frame t hm)]
  rw [MR.step_ok_r (shapefile_read_int32_size_be_r_frame t hm2)]
  rw [MR.pure_eq_r] at hf2
  simp only [Prod.mk.injEq, Except.ok.injEq] at hf2
  obtain ⟨h1, h2, h3⟩ := hf2
  subst h1 h2 h3
  rfl

lemma shapefile_read_shp_record_point_frame {oracle : Nat → Bool} {k : Nat}
    {shape : Option shapefile_shape_t} {s : SfStream} {l : Int}
    {rec : shapefile_shp_record_t} {s2 : SfStream} {l2 : Int} {k2 : Nat} (t : SfStream)
    (h : shapefile_read_shp_record_point oracle k shape s l = RecordResult.ok rec s2 l2 k2) :
    shapefile_read_shp_record_point oracle k shape (s ++ t) l =
      RecordResult.ok rec (s2 ++ t) l2 k2 := by
  unfold shapefile_read_shp_record_point at h ⊢
  split at h
  · rename_i ho
    rw [if_pos ho]
    split at h
    · simp at h
    · rename_i sh
      split at h
      · simp at h
      · rename_i x sx lx heqx
        rw [shapefile_read_double_le_r_frame t heqx]
        simp only []
        split at h
        · simp at h
        · rename_i y sy ly heqy
          rw [shapefile_read_double_le_r_frame t heqy]
          simp only []
          simp only [RecordResult.ok.injEq] at h
          obtain ⟨h1, h2, h3, h4⟩ := h
          rw [h1, h2, h3, h4]
  · rename_i ho
    simp at h

lemma shapefile_read_shp_record_frame {oracle : Nat → Bool} {k : Nat}
    {rh : shapefile_shp_record_header_t} {s : SfStream} {l : Int}
    {rec : shapefile_shp_record_t} {s2 : SfStream} {l2 : Int} {k2 : Nat} (t : SfStream)
    (h : shapefile_read_shp_record oracle k rh s l = RecordResult.ok rec s2 l2 k2) :
    shapefile_read_shp_record oracle k rh (s ++ t) l = RecordResult.ok rec (s2 ++ t) l2 k2 := by
  unfold shapefile_read_shp_record at h ⊢
  split at h
  · simp at h
  · rename_i tv s1 l1 ht
    rw [shapefile_read_int32_le_r_frame t ht]
    simp only []
    split at h
    · simp at h
    · rename_i hvalid
      rw [if_neg hvalid]
      split at h
      rename_i shape k1 hnew
      rw [hnew]
      simp only []
      split at h
      · rename_i ht0
        rw [if_pos ht0]
        simp only [RecordResult.ok.injEq] at h
        obtain ⟨h1, h2, h3, h4⟩ := h
        rw [h1, h2, h3, h4]
      · rename_i ht0
        rw [if_neg ht0]
        split at h
        · rename_i ht1
          rw [if_pos ht1]
          split at h
          · rename_i rec1 sp lp kp hp
            rw [shapefile_read_shp_record_point_frame t hp]
            simp only []
            simp only [RecordResult.ok.injEq] at h
            obtain ⟨h1, h2, h3, h4⟩ := h
            rw [h1, h2, h3, h4]
          · rename_i e sp lp kp hp
            split at h <;> simp at h
          · rename_i hp
            simp at h
        · rename_i ht1
          rw [if_neg ht1]
          split at h <;> simp at h

lemma shapefile_parse_shp_loop_eq_cont_none {σ : Type} (oracle : Nat → Bool)
    (ud : σ) (stop : Bool) (k : Nat) (s : SfStream) (len : Int)
    (h : ¬(stop = true ∨ len ≤ 0))
    {rh : shapefile_shp_record_header_t} {s1 : SfStream} {l1 : Int}
    (hh : shapefile_read_shp_record_header s len = (Except.ok rh, s1, l1))
    {rec : shapefile_shp_record_t} {s2 : SfStream} {l2 : Int} {k2 : Nat}
    (hr : shapefile_read_shp_record oracle k rh s1 l1 = RecordResult.ok rec s2 l2 k2) :
    shapefile_parse_shp_loop oracle (none : Option (SfCallback σ)) ud stop k s len =
      shapefile_parse_shp_loop oracle none ud stop k2 s2 l2 := by
  rw [shapefile_parse_shp_loop, if_neg h]
  split
  · rename_i e' s1' l1' heq
    rw [hh] at heq
    simp at heq
  · rename_i rh' s1' l1' heq
    rw [hh] at heq
    simp only [Prod.mk.injEq, Except.ok.injEq] at heq
    obtain ⟨h1, h2, h3⟩ := heq
    subst h1 h2 h3
    split
    · rename_i e' s2' l2' k2' heq2
      rw [hr] at heq2
      simp at heq2
    · rename_i heq2
      rw [hr] at heq2
      simp at heq2
    · rename_i rec' s2' l2' k2' heq2
      rw [hr] at heq2
      simp only [RecordResult.ok.injEq] at heq2
      obtain ⟨h1, h2, h3, h4⟩ := heq2
      subst h1 h2 h3 h4
      rfl

/-- Appending bytes after the portion of the stream a successful loop run
consumes changes nothing: the run delivers the same shapes, stops in the
same state, and the appended bytes are returned unread. -/
lemma shapefile_parse_shp_loop_frame {σ : Type} (oracle : Nat → Bool)
    (cb : Option (SfCallback σ)) :
    ∀ (n : Nat) (s : SfStream), s.length ≤ n →
    ∀ (t : SfStream) (ud : σ) (stop : Bool) (k : Nat) (len : Int) (ud1 : σ) (stp : Bool)
      (s1 : SfStream) (l1 : Int) (k1 : Nat),
      shapefile_parse_shp_loop oracle cb ud stop k s len = LoopResult.ok ud1 stp s1 l1 k1 →
      shapefile_parse_shp_loop oracle cb ud stop k (s ++ t) len =
        LoopResult.ok ud1 stp (s1 ++ t) l1 k1 := by
  intro n
  induction n with
  | zero =>
    intro s hs t ud stop k len ud1 stp s1 l1 k1 h
    by_cases hexit : stop = true ∨ len ≤ 0
    · rw [shapefile_parse_shp_loop_eq_exit _ _ _ _ _ _ _ hexit] at h
      simp only [LoopResult.ok.injEq] at h
      obtain ⟨h1, h2, h3, h4, h5⟩ := h
      subst h1 h2 h3 h4 h5
      rw [shapefile_parse_shp_loop_eq_exit _ _ _ _ _ _ _ hexit]
    · rcases hh : shapefile_read_shp_record_header s len with ⟨res, sh1, lh1⟩
      cases res with
      | error e =>
        rw [shapefile_parse_shp_loop_eq_fail_hdr _ _ _ _ _ _ _ hexit hh] at h
        exact LoopResult.noConfusion h
      | ok rh =>
        obtain ⟨h8, _, _⟩ := shapefile_read_shp_record_header_ok hh
        have : s.length = 0 := by omega
        omega
  | succ n ih =>
    intro s hs t ud stop k len ud1 stp s1 l1 k1 h
    by_cases hexit : stop = true ∨ len ≤ 0
    · rw [shapefile_parse_shp_loop_eq_exit _ _ _ _ _ _ _ hexit] at h
      simp only [LoopResult.ok.injEq] at h
      obtain ⟨h1, h2, h3, h4, h5⟩ := h
      subst h1 h2 h3 h4 h5
      rw [shapefile_parse_shp_loop_eq_exit _ _ _ _ _ _ _ hexit]
    · rcases hh : shapefile_read_shp_record_header s len with ⟨res, sh1, lh1⟩
      cases res with
      | error e =>
        rw [shapefile_parse_shp_loop_eq_fail_hdr _ _ _ _ _ _ _ hexit hh] at h
        exact LoopResult.noConfusion h
      | ok rh =>
        obtain ⟨h8, hsh1, hlh1⟩ := shapefile_read_shp_record_header_ok hh
        cases hr : shapefile_read_shp_record oracle k rh sh1 lh1 with
        | ok rec s2 l2 k2 =>
          obtain ⟨h4, hlen2, _⟩ := shapefile_read_shp_record_ok hr
          cases cb with
          | none =>
            rw [shapefile_parse_shp_loop_eq_cont_none _ _ _ _ _ _ hexit hh hr] at h
            rw [shapefile_parse_shp_loop_eq_cont_none _ _ _ _ _ _ hexit
              (shapefile_read_shp_record_header_frame t hh)
              (shapefile_read_shp_record_frame t hr)]
            exact ih s2 (by subst hsh1; simp [List.length_drop] at hlen2 ⊢; omega)
              t ud stop k2 l2 ud1 stp s1 l1 k1 h
          | some c =>
            rcases hshape : rec.shape with _ | sh
            · rw [shapefile_parse_shp_loop_eq_free_crash _ _ _ _ _ _ _ hexit hh hr hshape] at h
              exact LoopResult.noConfusion h
            · rw [shapefile_parse_shp_loop_eq_cont _ _ _ _ _ _ _ hexit hh hr hshape] at h
              rw [shapefile_parse_shp_loop_eq_cont _ _ _ _ _ _ _ hexit
                (shapefile_read_shp_record_header_frame t hh)
                (shapefile_read_shp_record_frame t hr) hshape]
              exact ih s2 (by subst hsh1; simp [List.length_drop] at hlen2 ⊢; omega)
                t _ _ k2 l2 ud1 stp s1 l1 k1 h
        | fail e s2 l2 k2 =>
          rw [shapefile_parse_shp_loop_eq_fail_rec _ _ _ _ _ _ _ hexit hh hr] at h
          exact LoopResult.noConfusion h
        | crash =>
          rw [shapefile_parse_shp_loop_eq_crash_rec _ _ _ _ _ _ _ hexit hh hr] at h
          exact LoopResult.noConfusion h

/-- Invariant for the counting callback: starting below the stop index
`K` (or exactly at `K` with the stop flag raised), the loop never counts
past `K`, and a run that ends with the stop flag raised counted exactly
`K` invocations. -/
lemma shapefile_parse_shp_loop_count (f : Nat → Option shapefile_shape_t → Bool) (K : Nat)
    (hbefore : ∀ sh i, i + 1 < K → f i sh = true)
    (hstop : ∀ sh, f (K - 1) sh = false) :
    ∀ (n : Nat) (s : SfStream), s.length ≤ n →
    ∀ (oracle : Nat → Bool) (cnt : Nat) (stop : Bool) (k : Nat) (len : Int),
      (stop = true → cnt = K) → (stop = false → cnt < K) →
      (∀ (ud1 : Nat) (stp : Bool) (s1 : SfStream) (l1 : Int) (k1 : Nat),
        shapefile_parse_shp_loop oracle (some (cbCount f)) cnt stop k s len =
          LoopResult.ok ud1 stp s1 l1 k1 →
        ud1 ≤ K ∧ (stp = true → ud1 = K)) ∧
      (∀ (e : SfErr) (ud1 : Nat) (s1 : SfStream) (l1 : Int) (k1 : Nat),
        shapefile_parse_shp_loop oracle (some (cbCount f)) cnt stop k s len =
          LoopResult.fail e ud1 s1 l1 k1 →
        ud1 ≤ K) := by
  intro n
  induction n with
  | zero =>
    intro s hs oracle cnt stop k len hinvT hinvF
    by_cases hexit : stop = true ∨ len ≤ 0
    · constructor
      · intro ud1 stp s1 l1 k1 h
        rw [shapefile_parse_shp_loop_eq_exit _ _ _ _ _ _ _ hexit] at h
        simp only [LoopResult.ok.injEq] at h
        obtain ⟨h1, h2, h3, h4, h5⟩ := h
        subst h1 h2 h3 h4 h5
        cases stop with
        | true => exact ⟨le_of_eq (hinvT rfl), fun _ => hinvT rfl⟩
        | false => exact ⟨le_of_lt (hinvF rfl), fun hc => by cases hc⟩
      · intro e ud1 s1 l1 k1 h
        rw [shapefile_parse_shp_loop_eq_exit _ _ _ _ _ _ _ hexit] at h
        exact LoopResult.noConfusion h
    · rcases hh : shapefile_read_shp_record_header s len with ⟨res, sh1, lh1⟩
      cases res with
      | error e =>
        constructor
        · intro ud1 stp s1 l1 k1 h
          rw [shapefile_parse_shp_loop_eq_fail_hdr _ _ _ _ _ _ _ hexit hh] at h
          exact LoopResult.noConfusion h
        · intro e' ud1 s1 l1 k1 h
          rw [shapefile_parse_shp_loop_eq_fail_hdr _ _ _ _ _ _ _ hexit hh] at h
          simp only [LoopResult.fail.injEq] at h
          obtain ⟨_, h2, _, _, _⟩ := h
          subst h2
          rcases (Bool.eq_false_or_eq_true stop) with hst | hst
          · exact le_of_eq (hinvT hst)
          · exact le_of_lt (hinvF hst)
      | ok rh =>
        obtain ⟨h8, _, _⟩ := shapefile_read_shp_record_header_ok hh
        omega
  | succ n ih =>
    intro s hs oracle cnt stop k len hinvT hinvF
    by_cases hexit : stop = true ∨ len ≤ 0
    · constructor
      · intro ud1 stp s1 l1 k1 h
        rw [shapefile_parse_shp_loop_eq_exit _ _ _ _ _ _ _ hexit] at h
        simp only [LoopResult.ok.injEq] at h
        obtain ⟨h1, h2, h3, h4, h5⟩ := h
        subst h1 h2 h3 h4 h5
        cases stop with
        | true => exact ⟨le_of_eq (hinvT rfl), fun _ => hinvT rfl⟩
        | false => exact ⟨le_of_lt (hinvF rfl), fun hc => by cases hc⟩
      · intro e ud1 s1 l1 k1 h
        rw [shapefile_parse_shp_loop_eq_exit _ _ _ _ _ _ _ hexit] at h
        exact LoopResult.noConfusion h
    · have hstopf : stop = false := by
        cases stop with
        | true => exact absurd (Or.inl rfl) hexit
        | false => rfl
      subst hstopf
      have hcnt : cnt < K := hinvF rfl
      rcases hh : shapefile_read_shp_record_header s len with ⟨res, sh1, lh1⟩
      cases res with
      | error e =>
        constructor
        · intro ud1 stp s1 l1 k1 h
          rw [shapefile_parse_shp_loop_eq_fail_hdr _ _ _ _ _ _ _ hexit hh] at h
          exact LoopResult.noConfusion h
        · intro e' ud1 s1 l1 k1 h
          rw [shapefile_parse_shp_loop_eq_fail_hdr _ _ _ _ _ _ _ hexit hh] at h
          simp only [LoopResult.fail.injEq] at h
          obtain ⟨_, h2, _, _, _⟩ := h
          subst h2
          exact le_of_lt hcnt
      | ok rh =>
        obtain ⟨h8, hsh1, hlh1⟩ := shapefile_read_shp_record_header_ok hh
        cases hr : shapefile_read_shp_record oracle k rh sh1 lh1 with
        | ok rec s2 l2 k2 =>
          obtain ⟨h4, hlen2, _⟩ := shapefile_read_shp_record_ok hr
          rcases hshape : rec.shape with _ | sh
          · constructor
            · intro ud1 stp s1 l1 k1 h
              rw [shapefile_parse_shp_loop_eq_free_crash _ _ _ _ _ _ _ hexit hh hr hshape] at h
              exact LoopResult.noConfusion h
            · intro e' ud1 s1 l1 k1 h
              rw [shapefile_parse_shp_loop_eq_free_crash _ _ _ _ _ _ _ hexit hh hr hshape] at h
              exact LoopResult.noConfusion h
          · have hstep := shapefile_parse_shp_loop_eq_cont oracle (cbCount f) cnt false k
              s len hexit hh hr hshape
            have hcb : cbCount f rec.shape cnt = (f cnt rec.shape, cnt + 1) := rfl
            have hlen2' : s2.length ≤ n := by
              subst hsh1
              simp [List.length_drop] at hlen2 ⊢
              omega
            rcases hf : f cnt rec.shape with _ | _
            · -- callback returned false: stop
              have hK : cnt + 1 = K := by
                by_cases hlt : cnt + 1 < K
                · rw [hbefore rec.shape cnt hlt] at hf
                  cases hf
                · omega
              have := ih s2 hlen2' oracle (cnt + 1) true k2 l2
                (fun _ => hK) (fun hc => by cases hc)
              constructor
              · intro ud1 stp s1 l1 k1 h
                rw [hstep, hcb, hf] at h
                exact this.1 ud1 stp s1 l1 k1 h
              · intro e' ud1 s1 l1 k1 h
                rw [hstep, hcb, hf] at h
                exact this.2 e' ud1 s1 l1 k1 h
            · -- callback returned true: continue
              have hK : cnt + 1 < K := by
                by_cases heq : cnt + 1 = K
                · have := hstop rec.shape
                  rw [show K - 1 = cnt by omega] at this
                  rw [this] at hf
                  cases hf
                · omega
              have := ih s2 hlen2' oracle (cnt + 1) false k2 l2
                (fun hc => by cases hc) (fun _ => hK)
              constructor
              · intro ud1 stp s1 l1 k1 h
                rw [hstep, hcb, hf] at h
                exact this.1 ud1 stp s1 l1 k1 h
              · intro e' ud1 s1 l1 k1 h
                rw [hstep, hcb, hf] at h
                exact this.2 e' ud1 s1 l1 k1 h
        | fail e s2 l2 k2 =>
          constructor
          · intro ud1 stp s1 l1 k1 h
            rw [shapefile_parse_shp_loop_eq_fail_rec _ _ _ _ _ _ _ hexit hh hr] at h
            exact LoopResult.noConfusion h
          · intro e' ud1 s1 l1 k1 h
            rw [shapefile_parse_shp_loop_eq_fail_rec _ _ _ _ _ _ _ hexit hh hr] at h
            simp only [LoopResult.fail.injEq] at h
            obtain ⟨_, h2, _, _, _⟩ := h
            subst h2
            exact le_of_lt hcnt
        | crash =>
          constructor
          · intro ud1 stp s1 l1 k1 h
            rw [shapefile_parse_shp_loop_eq_crash_rec _ _ _ _ _ _ _ hexit hh hr] at h
            exact LoopResult.noConfusion h
          · intro e' ud1 s1 l1 k1 h
            rw [shapefile_parse_shp_loop_eq_crash_rec _ _ _ _ _ _ _ hexit hh hr] at h
            exact LoopResult.noConfusion h

/-- C6: for every input stream and every consumer that continues up to and
stops at its `K`-th invocation, a completed run counts at most `K`
invocations, a run that set the stop flag counted exactly `K`, and a
stopped (or otherwise completed) run is unaffected by any bytes beyond
those it consumed: they are returned unread. -/
theorem C6_stop_after_k (f : Nat → Option shapefile_shape_t → Bool) (K : Nat) (hK : 0 < K)
    (hbefore : ∀ sh i, i + 1 < K → f i sh = true)
    (hstop : ∀ sh, f (K - 1) sh = false) :
    (∀ (oracle : Nat → Bool) (s : SfStream) (len : Int) (ud1 : Nat) (stp : Bool)
        (s1 : SfStream) (l1 : Int) (k1 : Nat),
      shapefile_parse_shp_loop oracle (some (cbCount f)) 0 false 0 s len =
        LoopResult.ok ud1 stp s1 l1 k1 →
      ud1 ≤ K ∧ (stp = true → ud1 = K)) ∧
    (∀ (oracle : Nat → Bool) (s : SfStream) (len : Int) (e : SfErr) (ud1 : Nat)
        (s1 : SfStream) (l1 : Int) (k1 : Nat),
      shapefile_parse_shp_loop oracle (some (cbCount f)) 0 false 0 s len =
        LoopResult.fail e ud1 s1 l1 k1 →
      ud1 ≤ K) ∧
    (∀ (oracle : Nat → Bool) (s t : SfStream) (len : Int) (ud1 : Nat) (stp : Bool)
        (s1 : SfStream) (l1 : Int) (k1 : Nat),
      shapefile_parse_shp_loop oracle (some (cbCount f)) 0 false 0 s len =
        LoopResult.ok ud1 stp s1 l1 k1 →
      shapefile_parse_shp_loop oracle (some (cbCount f)) 0 false 0 (s ++ t) len =
        LoopResult.ok ud1 stp (s1 ++ t) l1 k1) := by
  refine ⟨?_, ?_, ?_⟩
  · intro oracle s len ud1 stp s1 l1 k1 h
    exact (shapefile_parse_shp_loop_count f K hbefore hstop s.length s le_rfl oracle 0 false 0 len
      (fun hc => by cases hc) (fun _ => hK)).1 ud1 stp s1 l1 k1 h
  · intro oracle s len e ud1 s1 l1 k1 h
    exact (shapefile_parse_shp_loop_count f K hbefore hstop s.length s le_rfl oracle 0 false 0 len
      (fun hc => by cases hc) (fun _ => hK)).2 e ud1 s1 l1 k1 h
  · intro oracle s t len ud1 stp s1 l1 k1 h
    exact shapefile_parse_shp_loop_frame oracle (some (cbCount f)) s.length s le_rfl
      t 0 false 0 len ud1 stp s1 l1 k1 h

/-- Witness for C6 with `K = 2` on a file of three Null records: the run
stops after exactly 2 invocations, leaving the third record unread. -/
theorem C6_stop_after_k_witness :
    (0 : Nat) < 2 ∧
    (∀ (sh : Option shapefile_shape_t) (i : Nat), i + 1 < 2 →
      (fun n (_ : Option shapefile_shape_t) => decide (n + 1 ≠ 2)) i sh = true) ∧
    (∀ sh : Option shapefile_shape_t,
      (fun n (_ : Option shapefile_shape_t) => decide (n + 1 ≠ 2)) (2 - 1) sh = false) ∧
    shapefile_parse_shp_loop oracleT
      (some (cbCount (fun n (_ : Option shapefile_shape_t) => decide (n + 1 ≠ 2))))
      0 false 0 (nullRecords 3) 36 = LoopResult.ok 2 true (nullRecords 1) 12 2 ∧
    (2 : Nat) ≤ 2 ∧ (true = true → (2 : Nat) = 2) := by
  have hbefore : ∀ (sh : Option shapefile_shape_t) (i : Nat), i + 1 < 2 →
      (fun n (_ : Option shapefile_shape_t) => decide (n + 1 ≠ 2)) i sh = true := by
    intro sh i hi
    have hi0 : i = 0 := by omega
    subst hi0
    rfl
  have hstop : ∀ sh : Option shapefile_shape_t,
      (fun n (_ : Option shapefile_shape_t) => decide (n + 1 ≠ 2)) (2 - 1) sh = false := by
    intro sh
    rfl
  have hrun : shapefile_parse_shp_loop oracleT
      (some (cbCount (fun n (_ : Option shapefile_shape_t) => decide (n + 1 ≠ 2))))
      0 false 0 (nullRecords 3) 36 = LoopResult.ok 2 true (nullRecords 1) 12 2 := by
    have hh1 : shapefile_read_shp_record_header (nullRecords 3) 36 =
        (Except.ok ⟨toInt32 (beNat [0, 0, 0, 0]),
          splitVal (toInt16 (beNat [0, 0])) (toInt16 (beNat [0, 0]))⟩,
         0 :: 0 :: 0 :: 0 :: nullRecords 2, 36 - 8) :=
      shapefile_read_shp_record_header_chunk 0 0 0 0 0 0 0 0 (0 :: 0 :: 0 :: 0 :: nullRecords 2) 36
    have hr1 := @shapefile_read_shp_record_null_tag oracleT 0
      ⟨toInt32 (beNat [0, 0, 0, 0]), splitVal (toInt16 (beNat [0, 0])) (toInt16 (beNat [0, 0]))⟩
      (nullRecords 2) (36 - 8) rfl
    rw [shapefile_parse_shp_loop_eq_cont oracleT _ 0 false 0 (nullRecords 3) 36
      (by norm_num) hh1 hr1 rfl]
    show shapefile_parse_shp_loop oracleT
      (some (cbCount (fun n (_ : Option shapefile_shape_t) => decide (n + 1 ≠ 2))))
      1 false 1 (nullRecords 2) 24 = _
    have hh2 : shapefile_read_shp_record_header (nullRecords 2) 24 =
        (Except.ok ⟨toInt32 (beNat [0, 0, 0, 0]),
          splitVal (toInt16 (beNat [0, 0])) (toInt16 (beNat [0, 0]))⟩,
         0 :: 0 :: 0 :: 0 :: nullRecords 1, 24 - 8) :=
      shapefile_read_shp_record_header_chunk 0 0 0 0 0 0 0 0 (0 :: 0 :: 0 :: 0 :: nullRecords 1) 24
    have hr2 := @shapefile_read_shp_record_null_tag oracleT 1
      ⟨toInt32 (beNat [0, 0, 0, 0]), splitVal (toInt16 (beNat [0, 0])) (toInt16 (beNat [0, 0]))⟩
      (nullRecords 1) (24 - 8) rfl
    rw [shapefile_parse_shp_loop_eq_cont oracleT _ 1 false 1 (nullRecords 2) 24
      (by norm_num) hh2 hr2 rfl]
    show shapefile_parse_shp_loop oracleT
      (some (cbCount (fun n (_ : Option shapefile_shape_t) => decide (n + 1 ≠ 2))))
      2 true 2 (nullRecords 1) 12 = _
    rw [shapefile_parse_shp_loop_eq_exit _ _ _ _ _ _ _ (Or.inl rfl)]
  exact ⟨by norm_num, hbefore, hstop, hrun,
    (C6_stop_after_k _ 2 (by norm_num) hbefore hstop).1 oracleT (nullRecords 3) 36 2 true
      (nullRecords 1) 12 2 hrun⟩

/-- The file system for C7: a geometry file of `N` Null records with an
exact end-of-file-by-length header. -/
def fsNull (N : Nat) : SfFs := fun p =>
  if p = "f.shp" then some (mkHeaderBytes (100 + 12 * N) 0 (nullRecords N)) else none

/-- C7: a geometry file of exactly `N` Null records followed by
end-of-file-by-length, with an always-continue consumer: the iterator
delivers exactly `N` shapes in on-disk order (each the empty Null shape,
no payload bytes consumed), drains the stream, and the parse of the
geometry file succeeds. -/
theorem C7_null_records (N : Nat) (hN : 100 + 12 * N < 2147483648) :
    shapefile_parse_shp_loop oracleT (some cbTrace) [] false 0 (nullRecords N) (12 * N) =
      LoopResult.ok (List.replicate N (some ⟨0, none⟩)) false [] 0 N ∧
    shapefile_parse_shp oracleT (fsNull N) "f" (some cbTrace) [] false ⟨false, true⟩ =
      ParseResult.ok ⟨true, true⟩ (List.replicate N (some ⟨0, none⟩)) := by
  have hloop := loop_nullRecords N [] 0
  simp only [List.nil_append, Nat.zero_add] at hloop
  refine ⟨hloop, ?_⟩
  unfold shapefile_parse_shp
  have hfs : fsNull N ("f" ++ ".shp") =
      some (mkHeaderBytes (100 + 12 * N) 0 (nullRecords N)) := by rfl
  rw [hfs]
  simp only []
  rw [mkHeaderBytes_spec (100 + 12 * N) 0 (nullRecords N) hN (by omega) (by norm_num) (by decide)]
  simp only []
  rw [show shp_loop_budget ((100 + 12 * N : Nat) : Int) = 12 * N from by
    rw [shp_loop_budget_eq _ (by push_cast; omega) (by push_cast; omega)]
    push_cast
    ring]
  rw [hloop]

/-- C10: the record loop exits immediately once the remaining budget is
no longer positive, and every successful iteration (record header plus
record body) strictly decreases the budget by at least the 8 header bytes
plus the 4 shape-type bytes, and consumes at least 12 bytes of the finite
stream — the loop (a total Lean function, defined by well-founded
recursion on the stream length) therefore terminates on every input. -/
theorem C10_loop_terminates :
    (∀ (σ : Type) (oracle : Nat → Bool) (cb : Option (SfCallback σ)) (ud : σ) (stop : Bool)
        (k : Nat) (s : SfStream) (len : Int), len ≤ 0 →
      shapefile_parse_shp_loop oracle cb ud stop k s len = LoopResult.ok ud stop s len k) ∧
    (∀ (oracle : Nat → Bool) (k : Nat) (s : SfStream) (len : Int)
        (rh : shapefile_shp_record_header_t) (s1 : SfStream) (l1 : Int)
        (rec : shapefile_shp_record_t) (s2 : SfStream) (l2 : Int) (k2 : Nat),
      shapefile_read_shp_record_header s len = (Except.ok rh, s1, l1) →
      shapefile_read_shp_record oracle k rh s1 l1 = RecordResult.ok rec s2 l2 k2 →
      l2 ≤ len - 12 ∧ s2.length + 12 ≤ s.length) := by
  constructor
  · intro σ oracle cb ud stop k s len h
    exact shapefile_parse_shp_loop_eq_exit oracle cb ud stop k s len (Or.inr h)
  · intro oracle k s len rh s1 l1 rec s2 l2 k2 hh hr
    obtain ⟨h8, hs1, hl1⟩ := shapefile_read_shp_record_header_ok hh
    obtain ⟨h4, hlen, hl2⟩ := shapefile_read_shp_record_ok hr
    subst hs1 hl1
    constructor
    · omega
    · simp only [List.length_drop] at hlen
      omega

/-- Witness for C10: exhausted budget exits at once; one Null record
consumes 12 bytes of budget and stream. -/
theorem C10_loop_terminates_witness :
    ((-1 : Int) ≤ 0 ∧
      shapefile_parse_shp_loop oracleT (some cbTrace) [] false 0 [7, 7, 7] (-1) =
        LoopResult.ok [] false [7, 7, 7] (-1) 0) ∧
    (shapefile_read_shp_record_header (nullRecords 1) 100 = (Except.ok ⟨0, 0⟩, [0, 0, 0, 0], 92) ∧
      shapefile_read_shp_record oracleT 0 ⟨0, 0⟩ [0, 0, 0, 0] 92 =
        RecordResult.ok ⟨0, some ⟨0, none⟩⟩ [] 88 1 ∧
      (88 : Int) ≤ 100 - 12 ∧ (0 : Nat) + 12 ≤ (nullRecords 1).length) := by
  constructor
  · exact ⟨by norm_num, C10_loop_terminates.1 _ oracleT (some cbTrace) [] false 0 [7, 7, 7] (-1)
      (by norm_num)⟩
  · refine ⟨by rfl, by rfl, ?_⟩
    have h := C10_loop_terminates.2 oracleT 0 (nullRecords 1) 100 ⟨0, 0⟩ [0, 0, 0, 0] 92
      ⟨0, some ⟨0, none⟩⟩ [] 88 1 (by rfl) (by rfl)
    simpa using h

/-- C4: a record whose shape-type tag is structurally valid but
unimplemented (neither Null nor Point, e.g. Polygon) makes the decoder
fail with the "not supported" error without consuming any byte past the
4-byte tag, and makes the whole record loop fail at that record with the
caller state unchanged — zero further consumer-callback invocations. -/
theorem C4_unsupported_terminal :
    (∀ (b0 b1 b2 b3 : Nat) (oracle : Nat → Bool) (k : Nat)
        (rh : shapefile_shp_record_header_t) (rest : SfStream) (l : Int),
      shapefile_type_valid (toInt32 (leNat [b0, b1, b2, b3])) = true →
      toInt32 (leNat [b0, b1, b2, b3]) ≠ 0 → toInt32 (leNat [b0, b1, b2, b3]) ≠ 1 →
      oracle k = true →
      shapefile_read_shp_record oracle k rh (b0 :: b1 :: b2 :: b3 :: rest) l =
        RecordResult.fail (SfErr.unsupportedType (toInt32 (leNat [b0, b1, b2, b3])) rh.number)
          rest (l - 4) (k + 1)) ∧
    (∀ (σ : Type) (oracle : Nat → Bool) (c : SfCallback σ) (ud : σ) (k : Nat)
        (a0 a1 a2 a3 a4 a5 a6 a7 b0 b1 b2 b3 : Nat) (rest : SfStream) (len : Int),
      0 < len →
      shapefile_type_valid (toInt32 (leNat [b0, b1, b2, b3])) = true →
      toInt32 (leNat [b0, b1, b2, b3]) ≠ 0 → toInt32 (leNat [b0, b1, b2, b3]) ≠ 1 →
      oracle k = true →
      shapefile_parse_shp_loop oracle (some c) ud false k
        (a0 :: a1 :: a2 :: a3 :: a4 :: a5 :: a6 :: a7 :: b0 :: b1 :: b2 :: b3 :: rest) len =
        LoopResult.fail (SfErr.unsupportedType (toInt32 (leNat [b0, b1, b2, b3]))
          (toInt32 (beNat [a0, a1, a2, a3]))) ud rest (len - 12) (k + 1)) := by
  have hdec : ∀ (b0 b1 b2 b3 : Nat) (oracle : Nat → Bool) (k : Nat)
      (rh : shapefile_shp_record_header_t) (rest : SfStream) (l : Int),
      shapefile_type_valid (toInt32 (leNat [b0, b1, b2, b3])) = true →
      toInt32 (leNat [b0, b1, b2, b3]) ≠ 0 → toInt32 (leNat [b0, b1, b2, b3]) ≠ 1 →
      oracle k = true →
      shapefile_read_shp_record oracle k rh (b0 :: b1 :: b2 :: b3 :: rest) l =
        RecordResult.fail (SfErr.unsupportedType (toInt32 (leNat [b0, b1, b2, b3])) rh.number)
          rest (l - 4) (k + 1) := by
    intro b0 b1 b2 b3 oracle k rh rest l hvalid ht0 ht1 horacle
    unfold shapefile_read_shp_record
    have hread := shapefile_read_int32_le_r_chunk b0 b1 b2 b3 rest l
    split
    · rename_i e s1' l1' heq
      rw [hread] at heq
      simp at heq
    · rename_i tv s1' l1' heq
      rw [hread] at heq
      simp only [Prod.mk.injEq, Except.ok.injEq] at heq
      obtain ⟨h1, h2, h3⟩ := heq
      subst h1 h2 h3
      rw [if_neg (by simp [hvalid])]
      split
      rename_i shape k1 hnew
      rw [show shapefile_shape_new oracle k (toInt32 (leNat [b0, b1, b2, b3])) =
        (some ⟨toInt32 (leNat [b0, b1, b2, b3]), none⟩, k + 1) from by
          unfold shapefile_shape_new
          rw [horacle]
          simp] at hnew
      simp only [Prod.mk.injEq] at hnew
      obtain ⟨h1, h2⟩ := hnew
      subst h1 h2
      rw [if_neg ht0, if_neg ht1]
      rfl
  refine ⟨hdec, ?_⟩
  intro σ oracle c ud k a0 a1 a2 a3 a4 a5 a6 a7 b0 b1 b2 b3 rest len hlen hvalid ht0 ht1 horacle
  have hh := shapefile_read_shp_record_header_chunk a0 a1 a2 a3 a4 a5 a6 a7
    (b0 :: b1 :: b2 :: b3 :: rest) len
  have hr := hdec b0 b1 b2 b3 oracle k
    ⟨toInt32 (beNat [a0, a1, a2, a3]),
      splitVal (toInt16 (beNat [a4, a5])) (toInt16 (beNat [a6, a7]))⟩
    rest (len - 8) hvalid ht0 ht1 horacle
  have := shapefile_parse_shp_loop_eq_fail_rec oracle (some c) ud false k
    (a0 :: a1 :: a2 :: a3 :: a4 :: a5 :: a6 :: a7 :: b0 :: b1 :: b2 :: b3 :: rest) len
    (by simp; omega) hh hr
  rw [this]
  rw [show len - 8 - 4 = len - 12 from by ring]

/-- Witness for C4 at the Polygon tag (5) with a 7-byte body left unread. -/
theorem C4_unsupported_terminal_witness :
    shapefile_type_valid (toInt32 (leNat [5, 0, 0, 0])) = true ∧
    toInt32 (leNat [5, 0, 0, 0]) ≠ 0 ∧ toInt32 (leNat [5, 0, 0, 0]) ≠ 1 ∧
    oracleT 0 = true ∧ (0 : Int) < 20 ∧
    shapefile_read_shp_record oracleT 0 ⟨1, 2⟩ (5 :: 0 :: 0 :: 0 :: [9, 9, 9]) 20 =
      RecordResult.fail (SfErr.unsupportedType (toInt32 (leNat [5, 0, 0, 0])) (⟨1, 2⟩ :
        shapefile_shp_record_header_t).number) [9, 9, 9] (20 - 4) (0 + 1) ∧
    shapefile_parse_shp_loop oracleT (some cbTrace) [] false 0
      (0 :: 0 :: 0 :: 1 :: 0 :: 2 :: 0 :: 0 :: 5 :: 0 :: 0 :: 0 :: [9, 9, 9]) 20 =
      LoopResult.fail (SfErr.unsupportedType (toInt32 (leNat [5, 0, 0, 0]))
        (toInt32 (beNat [0, 0, 0, 1]))) [] [9, 9, 9] (20 - 12) (0 + 1) := by
  refine ⟨by decide, by decide, by decide, rfl, by norm_num, ?_, ?_⟩
  · exact C4_unsupported_terminal.1 5 0 0 0 oracleT 0 ⟨1, 2⟩ [9, 9, 9] 20
      (by decide) (by decide) (by decide) rfl
  · exact C4_unsupported_terminal.2 _ oracleT cbTrace [] 0 0 0 0 1 0 2 0 0 5 0 0 0 [9, 9, 9] 20
      (by norm_num) (by decide) (by decide) (by decide) rfl

/-- C5 (evaluating the code at the failing input): a header whose
split-BE length field decodes to the negative value `-2147483648` (low
half bytes `[0x00,0x00]`, high half bytes `[0x80,0x00]`) is below the
100-byte header size, yet the header is ACCEPTED — the C comparison
`header->length < SHAPEFILE_HEADER_SIZE` promotes the `int32_t` length
to the unsigned `size_t`, so the negative value wraps huge and the
too-short check never fires; the record-loop budget then wraps to the
large positive value `2147483548`.  The magic and shape-type validations
do run first as claimed: the same length field with a wrong magic still
fails with the bad-magic error. -/
theorem C5_signed_length_check :
    splitVal (toInt16 (beNat [0, 0])) (toInt16 (beNat [128, 0])) = -2147483648 ∧
    (-2147483648 : Int) < SHAPEFILE_HEADER_SIZE ∧
    shapefile_read_header
      ([0, 0, 39, 10] ++ List.replicate 20 0 ++ [0, 0, 128, 0] ++ [0, 0, 0, 0] ++ [0, 0, 0, 0] ++
        List.replicate 64 0) =
      (Except.ok ⟨9994, -2147483648, 0, 0, 0, 0, 0, 0, 0, 0, 0, 0⟩, []) ∧
    ¬ ((-2147483648 : Int) % 18446744073709551616 < SHAPEFILE_HEADER_SIZE) ∧
    shp_loop_budget (-2147483648) = 2147483548 ∧
    shapefile_read_header
      ([0, 0, 0, 0] ++ List.replicate 20 0 ++ [0, 0, 128, 0] ++ [0, 0, 0, 0] ++ [0, 0, 0, 0] ++
        List.replicate 64 0) =
      (Except.error (SfErr.badMagic 0), []) := by
  refine ⟨by decide, by decide, by rfl, by decide, by rfl, by rfl⟩

/-- The file system for C3: a minimal valid pair (no records), and a pair
whose geometry file holds one Polygon record (an unsupported kind). -/
def fsC3 : SfFs := fun p =>
  if p = "f.shx" then some (mkHeaderBytes 100 0 [])
  else if p = "f.shp" then some (mkHeaderBytes 100 0 [])
  else if p = "g.shx" then some (mkHeaderBytes 100 0 [])
  else if p = "g.shp" then some (mkHeaderBytes 112 0 [0, 0, 0, 1, 0, 2, 0, 0, 5, 0, 0, 0])
  else none

/-- C3 (refuting the claim): on a fully successful parse BOTH file handles
remain open, on a mid-stream decode failure the geometry handle remains
open (the cleanup block closes the index handle instead), and
`shapefile_free` releases no handle at all. -/
theorem C3_handles_never_released :
    shapefile_parse_cb oracleT fsC3 "f.shp" (some cbTrace) [] = ParseResult.ok ⟨true, true⟩ [] ∧
    shapefile_free ⟨true, true⟩ = ⟨true, true⟩ ∧
    shapefile_parse_cb oracleT fsC3 "g.shp" (some cbTrace) [] =
      ParseResult.fail (SfErr.unsupportedType 5 1) ⟨true, false⟩ [] ∧
    shapefile_free ⟨true, false⟩ = ⟨true, false⟩ := by
  refine ⟨?_, rfl, ?_, rfl⟩
  · simp only [shapefile_parse_cb]
    have hshx : shapefile_parse_shx fsC3 (shapefile_path_stem "f.shp") shapefile_init =
        (Except.ok (), ⟨false, true⟩) := by rfl
    rw [hshx]
    show shapefile_parse_shp oracleT fsC3 (shapefile_path_stem "f.shp") (some cbTrace) []
      false ⟨false, true⟩ = ParseResult.ok ⟨true, true⟩ []
    unfold shapefile_parse_shp
    have hfsp : fsC3 (shapefile_path_stem "f.shp" ++ ".shp") =
        some (mkHeaderBytes 100 0 []) := by rfl
    rw [hfsp]
    simp only []
    rw [mkHeaderBytes_spec 100 0 [] (by norm_num) (by norm_num) (by norm_num) (by decide)]
    simp only []
    rw [show shp_loop_budget ((100 : Nat) : Int) = 0 from by rfl]
    rw [shapefile_parse_shp_loop_eq_exit _ _ _ _ _ _ _ (Or.inr le_rfl)]
  · simp only [shapefile_parse_cb]
    have hshx : shapefile_parse_shx fsC3 (shapefile_path_stem "g.shp") shapefile_init =
        (Except.ok (), ⟨false, true⟩) := by rfl
    rw [hshx]
    show shapefile_parse_shp oracleT fsC3 (shapefile_path_stem "g.shp") (some cbTrace) []
      false ⟨false, true⟩ = ParseResult.fail (SfErr.unsupportedType 5 1) ⟨true, false⟩ []
    unfold shapefile_parse_shp
    have hfsp : fsC3 (shapefile_path_stem "g.shp" ++ ".shp") =
        some (mkHeaderBytes 112 0 [0, 0, 0, 1, 0, 2, 0, 0, 5, 0, 0, 0]) := by rfl
    rw [hfsp]
    simp only []
    rw [mkHeaderBytes_spec 112 0 [0, 0, 0, 1, 0, 2, 0, 0, 5, 0, 0, 0]
      (by norm_num) (by norm_num) (by norm_num) (by decide)]
    simp only []
    rw [show shp_loop_budget ((112 : Nat) : Int) = 12 from by rfl]
    have hh : shapefile_read_shp_record_header [0, 0, 0, 1, 0, 2, 0, 0, 5, 0, 0, 0] 12 =
        (Except.ok ⟨1, 2⟩, [5, 0, 0, 0], 4) := by rfl
    have hr : shapefile_read_shp_record oracleT 0 ⟨1, 2⟩ [5, 0, 0, 0] 4 =
        RecordResult.fail (SfErr.unsupportedType 5 1) [] 0 1 := by rfl
    rw [shapefile_parse_shp_loop_eq_fail_rec _ _ _ _ _ _ _ (by norm_num) hh hr]

/-- C8 (evaluating the code at the failing input): when `malloc` fails in
`shapefile_shape_new` while decoding a valid Point record, the decoder
dereferences the `NULL` shape pointer and crashes instead of failing with
the out-of-memory error — whether the crash comes from the geometry
assignment (point `malloc` succeeds) or from `shapefile_shape_free(NULL)`
(point `malloc` fails too).  Only the point-payload allocation is
checked: when it alone fails, the decoder correctly fails with the
out-of-memory error.  A Null record decoded with a failed shape
allocation crashes in the loop at `shapefile_shape_free`. -/
theorem C8_shape_alloc_unchecked :
    shapefile_read_shp_record (fun n => decide (n ≠ 0)) 0 ⟨1, 10⟩
      (1 :: 0 :: 0 :: 0 :: List.replicate 16 0) 100 = RecordResult.crash ∧
    shapefile_read_shp_record (fun _ => false) 0 ⟨1, 10⟩
      (1 :: 0 :: 0 :: 0 :: List.replicate 16 0) 100 = RecordResult.crash ∧
    shapefile_read_shp_record (fun n => decide (n = 0)) 0 ⟨1, 10⟩
      (1 :: 0 :: 0 :: 0 :: List.replicate 16 0) 100 =
      RecordResult.fail SfErr.outOfMemory (List.replicate 16 0) 96 2 ∧
    shapefile_read_shp_record (fun _ => false) 0 ⟨1, 10⟩ [0, 0, 0, 0] 4 =
      RecordResult.ok ⟨0, none⟩ [] 0 1 ∧
    shapefile_parse_shp_loop (fun _ => false) (some cbTrace) [] false 0 (nullRecords 1) 12 =
      LoopResult.crash := by
  refine ⟨by rfl, by rfl, by rfl, by rfl, ?_⟩
  have hh : shapefile_read_shp_record_header (nullRecords 1) 12 =
      (Except.ok ⟨0, 0⟩, [0, 0, 0, 0], 4) := by rfl
  have hr : shapefile_read_shp_record (fun _ => false) 0 ⟨0, 0⟩ [0, 0, 0, 0] 4 =
      RecordResult.ok ⟨0, none⟩ [] 0 1 := by rfl
  exact shapefile_parse_shp_loop_eq_free_crash _ cbTrace [] false 0 (nullRecords 1) 12
    (by norm_num) hh hr rfl

/-! ### Path-prefix computation -/

lemma strrchr_dot_eq_none : ∀ {l : List Char}, strrchr_dot l = none → '.' ∉ l := by
  intro l
  induction l with
  | nil => intro _ h; cases h
  | cons c rest ih =>
    intro h
    unfold strrchr_dot at h
    rcases hr : strrchr_dot rest with _ | j
    · rw [hr] at h
      by_cases hc : c = '.'
      · rw [if_pos hc] at h
        cases h
      · intro hmem
        rcases List.mem_cons.mp hmem with hcc | hmem2
        · exact hc hcc.symm
        · exact ih hr hmem2
    · rw [hr] at h
      cases h

lemma strrchr_dot_none : ∀ {l : List Char}, '.' ∉ l → strrchr_dot l = none := by
  intro l
  induction l with
  | nil => intro _; rfl
  | cons c rest ih =>
    intro h
    unfold strrchr_dot
    rw [ih (fun hm => h (List.mem_cons_of_mem c hm))]
    rw [if_neg (fun hc => h (by rw [hc]; exact List.mem_cons_self _ _))]

lemma strrchr_dot_some_spec : ∀ {l : List Char} {i : Nat}, strrchr_dot l = some i →
    l.take i ++ '.' :: l.drop (i + 1) = l ∧ '.' ∉ l.drop (i + 1) := by
  intro l
  induction l with
  | nil => intro i h; cases h
  | cons c rest ih =>
    intro i h
    unfold strrchr_dot at h
    rcases hr : strrchr_dot rest with _ | j
    · rw [hr] at h
      by_cases hc : c = '.'
      · rw [if_pos hc] at h
        injection h with h'
        subst h'
        constructor
        · simp [hc]
        · simpa using strrchr_dot_eq_none hr
      · rw [if_neg hc] at h
        cases h
    · rw [hr] at h
      injection h with h'
      subst h'
      obtain ⟨hdec, hnot⟩ := ih hr
      constructor
      · show (c :: rest).take (j + 1) ++ '.' :: (c :: rest).drop (j + 1 + 1) = c :: rest
        simp only [List.take_succ_cons, List.drop_succ_cons, List.cons_append]
        rw [hdec]
      · simpa only [List.drop_succ_cons] using hnot

/-- C9 counterexample: a path whose directory component contains a dot but
whose file name has no extension is truncated at that dot — `strrchr`
searches the whole path — so `"a.b/c"` is NOT used unmodified: the files
opened are `a.shx` and `a.shp`. -/
theorem C9_counterexample :
    shapefile_path_stem "a.b/c" = "a" ∧
    ("a" : String) ≠ "a.b/c" ∧
    shapefile_path_stem "a.b/c" ++ ".shx" = "a.shx" ∧
    shapefile_path_stem "a.b/c" ++ ".shp" = "a.shp" := by
  refine ⟨by rfl, by decide, by rfl, by rfl⟩

/-- C9 amended: the parse derives the prefix by truncating at the LAST
`'.'` anywhere in the path when one is present (the part after that dot
contains no further dot), uses the path unmodified when it contains no
dot at all, and then touches exactly the two paths `<prefix>.shx` and
`<prefix>.shp` of the file system. -/
theorem C9_prefix_last_dot :
    (∀ p : String, '.' ∉ p.data → shapefile_path_stem p = p) ∧
    (∀ p : String, '.' ∈ p.data →
      ∃ suffix : List Char, '.' ∉ suffix ∧
        (shapefile_path_stem p).data ++ '.' :: suffix = p.data) ∧
    (∀ (σ : Type) (oracle : Nat → Bool) (fs fs2 : SfFs) (path : String)
        (cb : Option (SfCallback σ)) (ud : σ),
      fs (shapefile_path_stem path ++ ".shx") = fs2 (shapefile_path_stem path ++ ".shx") →
      fs (shapefile_path_stem path ++ ".shp") = fs2 (shapefile_path_stem path ++ ".shp") →
      shapefile_parse_cb oracle fs path cb ud = shapefile_parse_cb oracle fs2 path cb ud) := by
  refine ⟨?_, ?_, ?_⟩
  · intro p h
    unfold shapefile_path_stem
    rw [strrchr_dot_none h]
  · intro p h
    rcases h2 : strrchr_dot p.data with _ | i
    · exact absurd h (strrchr_dot_eq_none h2)
    · obtain ⟨hdec, hnot⟩ := strrchr_dot_some_spec h2
      refine ⟨p.data.drop (i + 1), hnot, ?_⟩
      have hpfx : shapefile_path_stem p = String.mk (p.data.take i) := by
        unfold shapefile_path_stem
        rw [h2]
      rw [hpfx]
      exact hdec
  · intro σ oracle fs fs2 path cb ud hshx hshp
    simp only [shapefile_parse_cb, shapefile_parse_shx, shapefile_parse_shp]
    rw [hshx, hshp]

/-- Witness for the amended C9: a dot-free path is used unmodified, a
dotted path decomposes at its last dot, and the parse depends on the file
system only at the two derived paths. -/
theorem C9_prefix_last_dot_witness :
    ('.' ∉ ("abc" : String).data) ∧
    shapefile_path_stem "abc" = "abc" ∧
    ('.' ∈ ("a.b/c" : String).data) ∧
    (∃ suffix : List Char, '.' ∉ suffix ∧
      (shapefile_path_stem "a.b/c").data ++ '.' :: suffix = ("a.b/c" : String).data) ∧
    shapefile_parse_cb oracleT fsC3 "f.shp" (some cbTrace) [] =
      shapefile_parse_cb oracleT fsC3 "f.shp" (some cbTrace) [] := by
  refine ⟨by decide, ?_, by decide, ?_, ?_⟩
  · exact C9_prefix_last_dot.1 "abc" (by decide)
  · exact C9_prefix_last_dot.2.1 "a.b/c" (by decide)
  · exact C9_prefix_last_dot.2.2 _ oracleT fsC3 fsC3 "f.shp" (some cbTrace) [] rfl rfl

/-- Witness for C7 at `N = 2`. -/
theorem C7_null_records_witness :
    100 + 12 * 2 < 2147483648 ∧
    (shapefile_parse_shp_loop oracleT (some cbTrace) [] false 0 (nullRecords 2) (12 * 2) =
      LoopResult.ok (List.replicate 2 (some ⟨0, none⟩)) false [] 0 2 ∧
    shapefile_parse_shp oracleT (fsNull 2) "f" (some cbTrace) [] false ⟨false, true⟩ =
      ParseResult.ok ⟨true, true⟩ (List.replicate 2 (some ⟨0, none⟩))) :=
  ⟨by norm_num, C7_null_records 2 (by norm_num)⟩
